import Mathlib

/-!
# ARM privileged-state helpers (`arm_isa_helper.H`)

A shallow embedding of the processor-mode record, the condition flags, the
CPSR codec (`CPSRBuild` / `readCPSR` / `writeCPSR`), the banked register
router (`bypass_write` / `bypass_read`), the saved-status accessors, the
privilege predicate, the exception dispatcher (`service_interrupt`) and
`SignExtend`, followed by theorems about them.

Machine words are natural numbers; every place where the C code converts to a
32-bit type or relies on 32-bit wrap-around carries an explicit `% 2 ^ 32`.
-/

namespace ArmIsaHelper

/-! ## Data model -/

/-- Things the header uses but does not declare itself.
`HIGH_VECTOR` is the preprocessor switch tested by `#ifdef HIGH_VECTOR`.
`ABORT_MODE` is the constant `processor_mode::ABORT_MODE`, which
`service_interrupt` refers to although `class processor_mode` does not declare
it; its value is therefore left open. -/
structure Config where
  HIGH_VECTOR : Bool
  ABORT_MODE : Nat
  deriving DecidableEq, Repr

def USER_MODE : Nat := 0x10
def FIQ_MODE : Nat := 0x11
def IRQ_MODE : Nat := 0x12
def SUPERVISOR_MODE : Nat := 0x13
def UNDEFINED_MODE : Nat := 0x1B
def SYSTEM_MODE : Nat := 0x1F
def MODE_MASK : Nat := 0x1F

/-- The class `processor_mode`: the two interrupt-disable bits, the Thumb bit
and the mode number (an `unsigned int`). -/
structure processor_mode where
  fiq : Bool
  irq : Bool
  thumb : Bool
  mode : Nat
  deriving DecidableEq, Repr

/-- The default constructor of `processor_mode`. -/
def processor_mode.init : processor_mode :=
  { fiq := false, irq := false, thumb := false, mode := USER_MODE }

def EXCEPTION_RESET : Nat := 0
def EXCEPTION_UNDEFINED_INSTR : Nat := 1
def EXCEPTION_SWI : Nat := 2
def EXCEPTION_PREFETCH_ABORT : Nat := 3
def EXCEPTION_DATA_ABORT : Nat := 4
def EXCEPTION_IRQ : Nat := 5
def EXCEPTION_FIQ : Nat := 6

/-- The struct `flag_t`. -/
structure flag_t where
  N : Bool
  Z : Bool
  C : Bool
  V : Bool
  Q : Bool
  T : Bool
  deriving DecidableEq, Repr

/-- The global state the helpers read and write: `arm_proc_mode`, `flags`,
the generic register bank `RB` (a map from register index to value), the
banked registers and saved-status registers named in the header, and the
program counter `ac_pc`. -/
structure State where
  arm_proc_mode : processor_mode
  flags : flag_t
  RB : Nat → Nat
  R8_fiq : Nat
  R9_fiq : Nat
  R10_fiq : Nat
  R11_fiq : Nat
  R12_fiq : Nat
  R13_fiq : Nat
  R14_fiq : Nat
  R13_irq : Nat
  R14_irq : Nat
  R13_svc : Nat
  R14_svc : Nat
  R13_und : Nat
  R14_und : Nat
  R14_abt : Nat
  SPSR_fiq : Nat
  SPSR_irq : Nat
  SPSR_svc : Nat
  SPSR_und : Nat
  SPSR_abt : Nat
  ac_pc : Nat

/-- Modelled from the spec: the generic register bank is declared outside the
header and offers `read(index) -> u32`; `RB.read(address)` looks the index
up. -/
def RB_read (s : State) (address : Nat) : Nat := s.RB address

/-- Modelled from the spec: the generic register bank is declared outside the
header and offers `write(index, value)`; `RB.write(address, datum)` replaces
the value held at that one index. -/
def RB_write (s : State) (address datum : Nat) : State :=
  { s with RB := fun a => if a = address then datum else s.RB a }

/-! ## Bit macros -/

/-- The C operator `~` on a 32-bit operand. -/
def not32 (x : Nat) : Nat := (2 ^ 32 - 1) ^^^ (x % 2 ^ 32)

/-- The macro `isBitSet(variable, position)`. -/
def isBitSet (var position : Nat) : Bool := (var &&& (1 <<< position)) != 0

/-- The macro `getBit(variable, position)`. -/
def getBit (var position : Nat) : Bool := (var &&& (1 <<< position)) != 0

/-- The macro `setBit(variable, position)`, as the new value of a 32-bit
`variable`. -/
def setBit (var position : Nat) : Nat := (var ||| (1 <<< position)) % 2 ^ 32

/-- The macro `clearBit(variable, position)`, as the new value of a 32-bit
`variable`. -/
def clearBit (var position : Nat) : Nat := var &&& not32 (1 <<< position)

/-! ## CPSR codec -/

/-- The function `CPSRBuild`; the result is the bit pattern of `CPSR.entire`. -/
def CPSRBuild (s : State) : Nat :=
  let CPSR := s.arm_proc_mode.mode % 2 ^ 32
  let CPSR := if s.arm_proc_mode.fiq then setBit CPSR 6 else CPSR
  let CPSR := if s.arm_proc_mode.irq then setBit CPSR 7 else CPSR
  let CPSR := if s.arm_proc_mode.thumb then setBit CPSR 5 else CPSR
  let CPSR := if s.flags.N then setBit CPSR 31 else clearBit CPSR 31
  let CPSR := if s.flags.Z then setBit CPSR 30 else clearBit CPSR 30
  let CPSR := if s.flags.C then setBit CPSR 29 else clearBit CPSR 29
  let CPSR := if s.flags.V then setBit CPSR 28 else clearBit CPSR 28
  let CPSR := if s.flags.Q then setBit CPSR 27 else clearBit CPSR 27
  let CPSR := if s.flags.T then setBit CPSR 5 else CPSR
  CPSR

/-- The function `readCPSR`: the value of `CPSRBuild` cast to `uint32_t`. -/
def readCPSR (s : State) : Nat := CPSRBuild s % 2 ^ 32

/-- The function `writeCPSR`. -/
def writeCPSR (s : State) (value : Nat) : State :=
  let CPSR := value % 2 ^ 32
  let flags : flag_t :=
    { N := getBit CPSR 31
      Z := getBit CPSR 30
      C := getBit CPSR 29
      V := getBit CPSR 28
      Q := getBit CPSR 27
      T := getBit CPSR 5 }
  let arm_proc_mode : processor_mode :=
    { s.arm_proc_mode with
      fiq := getBit CPSR 6
      irq := getBit CPSR 7
      mode := value &&& MODE_MASK }
  { s with flags := flags, arm_proc_mode := arm_proc_mode }

/-! ## Banked register router -/

/-- The function `bypass_write`. A mode matched by no `case` leaves the
`switch` without any store. -/
def bypass_write (s : State) (address datum : Nat) : State :=
  if s.arm_proc_mode.mode = USER_MODE ∨ s.arm_proc_mode.mode = SYSTEM_MODE then
    RB_write s address datum
  else if s.arm_proc_mode.mode = FIQ_MODE then
    match address with
    | 14 => { s with R14_fiq := datum }
    | 13 => { s with R13_fiq := datum }
    | 12 => { s with R12_fiq := datum }
    | 11 => { s with R11_fiq := datum }
    | 10 => { s with R10_fiq := datum }
    | 9 => { s with R9_fiq := datum }
    | 8 => { s with R8_fiq := datum }
    | _ => RB_write s address datum
  else if s.arm_proc_mode.mode = IRQ_MODE then
    if address = 14 then { s with R14_irq := datum }
    else if address = 13 then { s with R13_irq := datum }
    else RB_write s address datum
  else if s.arm_proc_mode.mode = SUPERVISOR_MODE then
    if address = 14 then { s with R14_svc := datum }
    else if address = 13 then { s with R13_svc := datum }
    else RB_write s address datum
  else if s.arm_proc_mode.mode = UNDEFINED_MODE then
    if address = 14 then { s with R14_und := datum }
    else if address = 13 then { s with R13_und := datum }
    else RB_write s address datum
  else s

/-- The function `bypass_read`. A mode matched by no `case` leaves the
`switch` and reaches the end of the function without a `return`; that outcome
is `none`. -/
def bypass_read (s : State) (address : Nat) : Option Nat :=
  if s.arm_proc_mode.mode = USER_MODE ∨ s.arm_proc_mode.mode = SYSTEM_MODE then
    some (RB_read s address)
  else if s.arm_proc_mode.mode = FIQ_MODE then
    match address with
    | 14 => some s.R14_fiq
    | 13 => some s.R13_fiq
    | 12 => some s.R12_fiq
    | 11 => some s.R11_fiq
    | 10 => some s.R10_fiq
    | 9 => some s.R9_fiq
    | 8 => some s.R8_fiq
    | _ => some (RB_read s address)
  else if s.arm_proc_mode.mode = IRQ_MODE then
    if address = 14 then some s.R14_irq
    else if address = 13 then some s.R13_irq
    else some (RB_read s address)
  else if s.arm_proc_mode.mode = SUPERVISOR_MODE then
    if address = 14 then some s.R14_svc
    else if address = 13 then some s.R13_svc
    else some (RB_read s address)
  else if s.arm_proc_mode.mode = UNDEFINED_MODE then
    if address = 14 then some s.R14_und
    else if address = 13 then some s.R13_und
    else some (RB_read s address)
  else none

/-! ## Saved-status accessors -/

/-- The function `SPSRtoCPSR`; the diagnostic printed on the `default` branch
is not part of the state. -/
def SPSRtoCPSR (s : State) : State :=
  if s.arm_proc_mode.mode = FIQ_MODE then writeCPSR s s.SPSR_fiq
  else if s.arm_proc_mode.mode = IRQ_MODE then writeCPSR s s.SPSR_irq
  else if s.arm_proc_mode.mode = SUPERVISOR_MODE then writeCPSR s s.SPSR_svc
  else if s.arm_proc_mode.mode = UNDEFINED_MODE then writeCPSR s s.SPSR_und
  else s

/-- The function `writeSPSR`. -/
def writeSPSR (s : State) (value : Nat) : State :=
  if s.arm_proc_mode.mode = FIQ_MODE then { s with SPSR_fiq := value }
  else if s.arm_proc_mode.mode = IRQ_MODE then { s with SPSR_irq := value }
  else if s.arm_proc_mode.mode = SUPERVISOR_MODE then { s with SPSR_svc := value }
  else if s.arm_proc_mode.mode = UNDEFINED_MODE then { s with SPSR_und := value }
  else s

/-- The function `readSPSR`. -/
def readSPSR (s : State) : Nat :=
  if s.arm_proc_mode.mode = FIQ_MODE then s.SPSR_fiq
  else if s.arm_proc_mode.mode = IRQ_MODE then s.SPSR_irq
  else if s.arm_proc_mode.mode = SUPERVISOR_MODE then s.SPSR_svc
  else if s.arm_proc_mode.mode = UNDEFINED_MODE then s.SPSR_und
  else 0

/-- The function `in_a_privileged_mode`. -/
def in_a_privileged_mode (s : State) : Bool :=
  if s.arm_proc_mode.mode = SYSTEM_MODE then true
  else if s.arm_proc_mode.mode = FIQ_MODE then true
  else if s.arm_proc_mode.mode = IRQ_MODE then true
  else if s.arm_proc_mode.mode = SUPERVISOR_MODE then true
  else if s.arm_proc_mode.mode = UNDEFINED_MODE then true
  else false

/-! ## Exception dispatcher -/

def RESET_ADDR : Nat := 0x00000000
def RESET_ADDR_HI : Nat := 0xffff0000
def UNDEFINED_ADDR : Nat := 0x00000004
def UNDEFINED_ADDR_HI : Nat := 0xffff0004
def SWI_ADDR : Nat := 0x00000008
def SWI_ADDR_HI : Nat := 0xffff0008
def PREFETCH_ABORT_ADDR : Nat := 0x0000000c
def PREFETCH_ABORT_ADDR_HI : Nat := 0xffff000c
def DATA_ABORT_ADDR : Nat := 0x00000010
def DATA_ABORT_ADDR_HI : Nat := 0xffff0010
def IRQ_ADDR : Nat := 0x00000018
def IRQ_ADDR_HI : Nat := 0xffff0018
def FIQ_ADDR : Nat := 0x0000001c
def FIQ_ADDR_HI : Nat := 0xffff001c

/-- The body of the function `service_interrupt`, with both ways it can end:
`Except.ok t` when it returns, `t` being the state after the call, and
`Except.error e` when the `default` branch is reached (`assert(0)` followed by
`abort()`), `e` being the state at the moment of the abort. -/
def service_interrupt_run (cfg : Config) (s : State) (excep_type : Nat) :
    Except State State :=
  let cpsr := readCPSR s
  if (cpsr &&& (1 <<< 6)) ≠ 0 ∧ excep_type = EXCEPTION_FIQ then Except.ok s
  else if (cpsr &&& (1 <<< 7)) ≠ 0 ∧ excep_type = EXCEPTION_IRQ then Except.ok s
  else
    let switched : Except State (State × Nat) :=
      if excep_type = EXCEPTION_RESET then
        let s := { s with R14_svc := 0 }
        let s := { s with SPSR_svc := 0 }
        let cpsr := cpsr &&& not32 MODE_MASK
        let cpsr := cpsr ||| SUPERVISOR_MODE
        let cpsr := cpsr ||| (1 <<< 6)
        Except.ok ({ s with ac_pc := if cfg.HIGH_VECTOR then RESET_ADDR_HI else RESET_ADDR },
          cpsr)
      else if excep_type = EXCEPTION_UNDEFINED_INSTR then
        let s := { s with R14_und := s.ac_pc }
        let s := { s with SPSR_und := cpsr }
        let cpsr := cpsr &&& not32 MODE_MASK
        let cpsr := cpsr ||| UNDEFINED_MODE
        Except.ok ({ s with
          ac_pc := if cfg.HIGH_VECTOR then UNDEFINED_ADDR_HI else UNDEFINED_ADDR },
          cpsr)
      else if excep_type = EXCEPTION_SWI then
        let s := { s with R14_svc := s.ac_pc }
        let s := { s with SPSR_svc := cpsr }
        let cpsr := cpsr &&& not32 MODE_MASK
        let cpsr := cpsr ||| SUPERVISOR_MODE
        Except.ok ({ s with ac_pc := if cfg.HIGH_VECTOR then SWI_ADDR_HI else SWI_ADDR }, cpsr)
      else if excep_type = EXCEPTION_PREFETCH_ABORT then
        let s := { s with R14_abt := s.ac_pc }
        let s := { s with SPSR_abt := cpsr }
        let cpsr := cpsr &&& not32 MODE_MASK
        let cpsr := cpsr ||| cfg.ABORT_MODE
        Except.ok ({ s with
          ac_pc := if cfg.HIGH_VECTOR then PREFETCH_ABORT_ADDR_HI else PREFETCH_ABORT_ADDR },
          cpsr)
      else if excep_type = EXCEPTION_DATA_ABORT then
        let s := { s with R14_abt := (s.ac_pc + 4) % 2 ^ 32 }
        let s := { s with SPSR_abt := cpsr }
        let cpsr := cpsr &&& not32 MODE_MASK
        let cpsr := cpsr ||| cfg.ABORT_MODE
        Except.ok ({ s with
          ac_pc := if cfg.HIGH_VECTOR then DATA_ABORT_ADDR_HI else DATA_ABORT_ADDR },
          cpsr)
      else if excep_type = EXCEPTION_IRQ then
        let s := { s with R14_irq := (s.ac_pc + 4) % 2 ^ 32 }
        let s := { s with SPSR_irq := cpsr }
        let cpsr := cpsr &&& not32 MODE_MASK
        let cpsr := cpsr ||| IRQ_MODE
        Except.ok ({ s with ac_pc := if cfg.HIGH_VECTOR then IRQ_ADDR_HI else IRQ_ADDR }, cpsr)
      else if excep_type = EXCEPTION_FIQ then
        let s := { s with R14_fiq := (s.ac_pc + 4) % 2 ^ 32 }
        let s := { s with SPSR_fiq := cpsr }
        let cpsr := cpsr &&& not32 MODE_MASK
        let cpsr := cpsr ||| FIQ_MODE
        let cpsr := cpsr ||| (1 <<< 6)
        Except.ok ({ s with ac_pc := if cfg.HIGH_VECTOR then FIQ_ADDR_HI else FIQ_ADDR }, cpsr)
      else Except.error s
    match switched with
    | Except.error e => Except.error e
    | Except.ok (s, cpsr) =>
      let cpsr := cpsr &&& not32 (1 <<< 5)
      let cpsr := cpsr ||| (1 <<< 7)
      Except.ok (writeCPSR s cpsr)

/-- The function `service_interrupt` as a state transformer: the state after
the call, or `none` when the call ends in `abort()`. -/
def service_interrupt (cfg : Config) (s : State) (excep_type : Nat) : Option State :=
  match service_interrupt_run cfg s excep_type with
  | Except.ok t => some t
  | Except.error _ => none

/-! ## Sign extension -/

/-- The value of a 32-bit pattern read as `int32_t` (conversion of an
unsigned value to `int32_t`, wrapping modulo 2^32). -/
def toInt32 (u : Nat) : Int :=
  if u % 2 ^ 32 < 2 ^ 31 then ((u % 2 ^ 32 : Nat) : Int) else ((u % 2 ^ 32 : Nat) : Int) - 2 ^ 32

/-- The `w`-bit pattern of an integer (conversion to an unsigned type of `w`
bits). -/
def toBits (w : Nat) (i : Int) : Nat := (i % 2 ^ w).toNat

/-- The function `SignExtend`. `m` is `1U << (word_length - 1)` converted to
`int32_t`; `x` is `word`, converted to `unsigned long long`, masked with
`(1ULL << word_length) - 1` and converted to `int32_t`; the result is
`(x ^ m) - m` in 32-bit arithmetic. -/
def SignExtend (word : Int) (word_length : Nat) : Int :=
  let m : Int := toInt32 ((1 <<< (word_length - 1)) % 2 ^ 32)
  let x : Int :=
    toInt32 (toBits 64 word &&& (((1 <<< word_length) % 2 ^ 64 + 2 ^ 64 - 1) % 2 ^ 64))
  toInt32 (toBits 32 (toInt32 (toBits 32 x ^^^ toBits 32 m) - m))

/-! ## Concrete states used as test points -/

/-- The state right after construction of the globals: `arm_proc_mode` as
its constructor leaves it, every flag clear and every register zero. -/
def State.init : State :=
  { arm_proc_mode := processor_mode.init
    flags := { N := false, Z := false, C := false, V := false, Q := false, T := false }
    RB := fun _ => 0
    R8_fiq := 0, R9_fiq := 0, R10_fiq := 0, R11_fiq := 0, R12_fiq := 0
    R13_fiq := 0, R14_fiq := 0, R13_irq := 0, R14_irq := 0, R13_svc := 0
    R14_svc := 0, R13_und := 0, R14_und := 0, R14_abt := 0
    SPSR_fiq := 0, SPSR_irq := 0, SPSR_svc := 0, SPSR_und := 0, SPSR_abt := 0
    ac_pc := 0 }

/-- The bit layout of the status word as the specification words it (not
taken from the code): mode in bits 4:0, then Thumb, FIQ-disabled and
IRQ-disabled in bits 5, 6, 7 and Q, V, C, Z, N in bits 27 to 31, every other
bit zero. -/
def cpsrLayout (mode : Nat) (thumb fiq irq Q V C Z N : Bool) : Nat :=
  mode ||| (thumb.toNat <<< 5) ||| (fiq.toNat <<< 6) ||| (irq.toNat <<< 7) |||
    (Q.toNat <<< 27) ||| (V.toNat <<< 28) ||| (C.toNat <<< 29) ||| (Z.toNat <<< 30) |||
    (N.toNat <<< 31)

/-- The tracked bits of a status word as the specification lists them (not
taken from the code): mode bits 4:0, Thumb bit 5, the interrupt-disable bits 6
and 7 and the flag bits 27 to 31. -/
def CPSR_TRACKED : Nat := 0xF80000FF

/-- A state in Supervisor mode with IRQ disabled and the flags N, C, T set. -/
def State.sample : State :=
  { State.init with
    arm_proc_mode := { fiq := false, irq := true, thumb := false, mode := SUPERVISOR_MODE }
    flags := { N := true, Z := false, C := true, V := false, Q := false, T := true }
    R13_svc := 0x8000, R14_svc := 0x1234, SPSR_svc := 0x10, ac_pc := 0x2000 }

/-- The initial state with only `flags.T` set. -/
def State.flagT : State :=
  { State.init with flags := { State.init.flags with T := true } }

/-- The initial state with only `arm_proc_mode.thumb` set. -/
def State.modeThumb : State :=
  { State.init with arm_proc_mode := { State.init.arm_proc_mode with thumb := true } }

/-- The initial state switched to mode number 0x17, the ARM encoding of Abort
mode. -/
def State.inAbort : State :=
  { State.init with arm_proc_mode := { State.init.arm_proc_mode with mode := 0x17 } }

/-- A configuration with low vectors and `ABORT_MODE` = 0x17. -/
def Config.low : Config := { HIGH_VECTOR := false, ABORT_MODE := 0x17 }

/-- A state in Supervisor mode with both FIQ and IRQ disabled. -/
def State.masked : State :=
  { State.sample with
    arm_proc_mode := { fiq := true, irq := true, thumb := false, mode := SUPERVISOR_MODE } }

/-- The state in mode 0x17 (Abort) whose `SPSR_abt` holds 0x10, the status
word of User mode with all flags clear. -/
def State.inAbortSaved : State :=
  { State.inAbort with SPSR_abt := 0x10 }

/-- A state in System mode with FIQ disabled, IRQ enabled, the flags N, C, V
and T set, and non-zero IRQ registers and program counter. -/
def State.busy : State :=
  { State.init with
    arm_proc_mode := { fiq := true, irq := false, thumb := false, mode := SYSTEM_MODE }
    flags := { N := true, Z := false, C := true, V := true, Q := false, T := true }
    R13_irq := 0x7000, R14_irq := 0x44, SPSR_irq := 0x1F, ac_pc := 0x8000 }

/-! ## Bit-level lemmas -/

theorem getBit_eq_testBit (x p : Nat) : getBit x p = x.testBit p := by
  unfold getBit
  rw [Nat.one_shiftLeft, Nat.and_two_pow]
  cases h : x.testBit p <;> simp [h]

/-- Reading a bit below 32 of a value converted to 32 bits. -/
theorem getBit_mod_word (v p : Nat) (hp : p < 32) :
    getBit (v % 4294967296) p = v.testBit p := by
  have h : (4294967296 : Nat) = 2 ^ 32 := by norm_num
  rw [getBit_eq_testBit, h, Nat.testBit_mod_two_pow]
  simp [hp]

theorem testBit_not32 (x i : Nat) :
    (not32 x).testBit i = (decide (i < 32) && !x.testBit i) := by
  unfold not32
  rw [Nat.testBit_xor, Nat.testBit_two_pow_sub_one, Nat.testBit_mod_two_pow]
  by_cases h : i < 32 <;> simp [h]

theorem testBit_setBit (x p i : Nat) :
    (setBit x p).testBit i = (decide (i < 32) && (x.testBit i || decide (p = i))) := by
  unfold setBit
  rw [Nat.testBit_mod_two_pow, Nat.testBit_or, Nat.one_shiftLeft, Nat.testBit_two_pow]

theorem testBit_clearBit (x p i : Nat) :
    (clearBit x p).testBit i = (x.testBit i && (decide (i < 32) && !decide (p = i))) := by
  unfold clearBit
  rw [Nat.testBit_and, testBit_not32, Nat.one_shiftLeft, Nat.testBit_two_pow]

/-- Bits of `if (b) setBit(x, p);`. -/
theorem testBit_ite_setBit (b : Bool) (x p i : Nat) :
    (if b = true then setBit x p else x).testBit i
      = ((decide (i < 32) || !b) && (x.testBit i || (b && decide (p = i)))) := by
  cases b <;> simp [testBit_setBit]

/-- Bits of `if (b) setBit(x, p); else clearBit(x, p);`. -/
theorem testBit_ite_setBit_clearBit (b : Bool) (x p i : Nat) :
    (if b = true then setBit x p else clearBit x p).testBit i
      = (decide (i < 32) && ((x.testBit i && !decide (p = i)) || (b && decide (p = i)))) := by
  cases b <;> by_cases h : p = i <;> simp [testBit_setBit, testBit_clearBit, h, Bool.and_comm]

/-- Every bit of the status word, in terms of the fields it is built from. -/
theorem testBit_readCPSR (s : State) (i : Nat) :
    (readCPSR s).testBit i = (decide (i < 32) &&
      (if i = 31 then s.flags.N else if i = 30 then s.flags.Z
       else if i = 29 then s.flags.C else if i = 28 then s.flags.V
       else if i = 27 then s.flags.Q
       else if i = 7 then (s.arm_proc_mode.irq || s.arm_proc_mode.mode.testBit 7)
       else if i = 6 then (s.arm_proc_mode.fiq || s.arm_proc_mode.mode.testBit 6)
       else if i = 5 then
        (s.arm_proc_mode.thumb || s.flags.T || s.arm_proc_mode.mode.testBit 5)
       else s.arm_proc_mode.mode.testBit i)) := by
  unfold readCPSR CPSRBuild
  simp only [Nat.testBit_mod_two_pow, testBit_ite_setBit, testBit_ite_setBit_clearBit]
  by_cases hi : i < 32
  · have key : i = 5 ∨ i = 6 ∨ i = 7 ∨ i = 27 ∨ i = 28 ∨ i = 29 ∨ i = 30 ∨ i = 31 ∨
        (i ≠ 5 ∧ i ≠ 6 ∧ i ≠ 7 ∧ i ≠ 27 ∧ i ≠ 28 ∧ i ≠ 29 ∧ i ≠ 30 ∧ i ≠ 31) := by omega
    rcases key with rfl | rfl | rfl | rfl | rfl | rfl | rfl | rfl | ⟨h5, h6, h7, h27, h28, h29, h30, h31⟩
    · cases s.arm_proc_mode.thumb <;> cases s.flags.T <;> simp
    · simp [Bool.or_comm]
    · simp [Bool.or_comm]
    · simp
    · simp
    · simp
    · simp
    · simp
    · simp [hi, h5, h6, h7, h27, h28, h29, h30, h31, Ne.symm h5, Ne.symm h6, Ne.symm h7,
        Ne.symm h27, Ne.symm h28, Ne.symm h29, Ne.symm h30, Ne.symm h31]
  · simp [hi]

theorem testBit_eq_false_of_le_MODE_MASK {m i : Nat} (h : m ≤ MODE_MASK) (hi : 5 ≤ i) :
    m.testBit i = false := by
  apply Nat.testBit_lt_two_pow
  have h1 : m < 2 ^ 5 := by unfold MODE_MASK at h; omega
  exact lt_of_lt_of_le h1 (Nat.pow_le_pow_right (by norm_num) hi)

theorem testBit_MODE_MASK (i : Nat) : MODE_MASK.testBit i = decide (i < 5) := by
  have h : MODE_MASK = 2 ^ 5 - 1 := by decide
  rw [h, Nat.testBit_two_pow_sub_one]

theorem testBit_CPSR_TRACKED (i : Nat) :
    CPSR_TRACKED.testBit i = (decide (i < 8) || (decide (27 ≤ i) && decide (i < 32))) := by
  have h : CPSR_TRACKED = (2 ^ 32 - 1) ^^^ (2 ^ 27 - 1) ^^^ (2 ^ 8 - 1) := by decide
  rw [h, Nat.testBit_xor, Nat.testBit_xor, Nat.testBit_two_pow_sub_one,
    Nat.testBit_two_pow_sub_one, Nat.testBit_two_pow_sub_one]
  by_cases h8 : i < 8
  · have h27 : i < 27 := by omega
    have h32 : i < 32 := by omega
    simp [h8, h27, h32]
  · by_cases h27 : i < 27
    · have h32 : i < 32 := by omega
      have h27b : ¬ 27 ≤ i := by omega
      simp [h8, h27, h32, h27b]
    · by_cases h32 : i < 32
      · have h27b : 27 ≤ i := by omega
        simp [h8, h27, h32, h27b]
      · simp [h8, h27, h32]

/-- The mode field read back from the status word. -/
theorem readCPSR_and_MODE_MASK (s : State) (h : s.arm_proc_mode.mode ≤ MODE_MASK) :
    readCPSR s &&& MODE_MASK = s.arm_proc_mode.mode := by
  apply Nat.eq_of_testBit_eq
  intro i
  rw [Nat.testBit_and, testBit_MODE_MASK, testBit_readCPSR]
  by_cases hi : i < 5
  · have h31 : i ≠ 31 := by omega
    have h30 : i ≠ 30 := by omega
    have h29 : i ≠ 29 := by omega
    have h28 : i ≠ 28 := by omega
    have h27 : i ≠ 27 := by omega
    have h7 : i ≠ 7 := by omega
    have h6 : i ≠ 6 := by omega
    have h5 : i ≠ 5 := by omega
    have h32 : i < 32 := by omega
    simp [hi, h31, h30, h29, h28, h27, h7, h6, h5, h32]
  · have := testBit_eq_false_of_le_MODE_MASK h (Nat.le_of_not_lt hi)
    simp [hi, this]

/-! ## C1 – C4: the CPSR codec -/

/-- C1 (as stated, refuted): with `flags.T` set and the Thumb flag of
`arm_proc_mode` clear, `readCPSR` returns 0x30 in User mode, whereas the layout
with bit 5 taken from the `arm_proc_mode` Thumb flag alone gives 0x10. -/
theorem readCPSR_thumb_only_layout_fails :
    State.flagT.arm_proc_mode.mode < 2 ^ 5 ∧
    readCPSR State.flagT = 0x30 ∧
    cpsrLayout State.flagT.arm_proc_mode.mode State.flagT.arm_proc_mode.thumb
      State.flagT.arm_proc_mode.fiq State.flagT.arm_proc_mode.irq State.flagT.flags.Q
      State.flagT.flags.V State.flagT.flags.C State.flagT.flags.Z State.flagT.flags.N = 0x10 ∧
    readCPSR State.flagT ≠
      cpsrLayout State.flagT.arm_proc_mode.mode State.flagT.arm_proc_mode.thumb
        State.flagT.arm_proc_mode.fiq State.flagT.arm_proc_mode.irq State.flagT.flags.Q
        State.flagT.flags.V State.flagT.flags.C State.flagT.flags.Z State.flagT.flags.N := by
  decide

/-- C1 (amended): for every state whose mode fits in 5 bits, `readCPSR`
returns mode | Th<<5 | FIQ-disabled<<6 | IRQ-disabled<<7 | Q<<27 | V<<28 |
C<<29 | Z<<30 | N<<31 where Th is the OR of the `arm_proc_mode` Thumb flag and
`flags.T`; all other bits are zero. (`readCPSR` is a function of the state and
returns no new state.) -/
theorem readCPSR_eq_cpsrLayout (s : State) (h : s.arm_proc_mode.mode ≤ MODE_MASK) :
    readCPSR s =
      cpsrLayout s.arm_proc_mode.mode (s.arm_proc_mode.thumb || s.flags.T)
        s.arm_proc_mode.fiq s.arm_proc_mode.irq s.flags.Q s.flags.V s.flags.C s.flags.Z
        s.flags.N := by
  apply Nat.eq_of_testBit_eq
  intro i
  rw [testBit_readCPSR]
  unfold cpsrLayout
  simp only [Nat.testBit_or, Nat.testBit_shiftLeft, Nat.testBit_bool_to_nat]
  have key : i < 5 ∨ i = 5 ∨ i = 6 ∨ i = 7 ∨ (8 ≤ i ∧ i < 27) ∨ i = 27 ∨ i = 28 ∨ i = 29 ∨
      i = 30 ∨ i = 31 ∨ 32 ≤ i := by omega
  have m5 := testBit_eq_false_of_le_MODE_MASK (i := 5) h (by norm_num)
  have m6 := testBit_eq_false_of_le_MODE_MASK (i := 6) h (by norm_num)
  have m7 := testBit_eq_false_of_le_MODE_MASK (i := 7) h (by norm_num)
  have m27 := testBit_eq_false_of_le_MODE_MASK (i := 27) h (by norm_num)
  have m28 := testBit_eq_false_of_le_MODE_MASK (i := 28) h (by norm_num)
  have m29 := testBit_eq_false_of_le_MODE_MASK (i := 29) h (by norm_num)
  have m30 := testBit_eq_false_of_le_MODE_MASK (i := 30) h (by norm_num)
  have m31 := testBit_eq_false_of_le_MODE_MASK (i := 31) h (by norm_num)
  rcases key with h0 | rfl | rfl | rfl | ⟨h8, h26⟩ | rfl | rfl | rfl | rfl | rfl | h32
  · have a1 : i < 32 := by omega
    have a2 : ¬ 5 ≤ i := by omega
    have a3 : ¬ 6 ≤ i := by omega
    have a4 : ¬ 7 ≤ i := by omega
    have a5 : ¬ 27 ≤ i := by omega
    have a6 : ¬ 28 ≤ i := by omega
    have a7 : ¬ 29 ≤ i := by omega
    have a8 : ¬ 30 ≤ i := by omega
    have a9 : ¬ 31 ≤ i := by omega
    have b1 : i ≠ 31 := by omega
    have b2 : i ≠ 30 := by omega
    have b3 : i ≠ 29 := by omega
    have b4 : i ≠ 28 := by omega
    have b5 : i ≠ 27 := by omega
    have b6 : i ≠ 7 := by omega
    have b7 : i ≠ 6 := by omega
    have b8 : i ≠ 5 := by omega
    simp [a1, a2, a3, a4, a5, a6, a7, a8, a9, b1, b2, b3, b4, b5, b6, b7, b8]
  · simp [m5]
  · simp [m6]
  · simp [m7]
  · have a0 := testBit_eq_false_of_le_MODE_MASK (i := i) h (by omega)
    have a1 : i < 32 := by omega
    have a5 : ¬ 27 ≤ i := by omega
    have a6 : ¬ 28 ≤ i := by omega
    have a7 : ¬ 29 ≤ i := by omega
    have a8 : ¬ 30 ≤ i := by omega
    have a9 : ¬ 31 ≤ i := by omega
    have b1 : i ≠ 31 := by omega
    have b2 : i ≠ 30 := by omega
    have b3 : i ≠ 29 := by omega
    have b4 : i ≠ 28 := by omega
    have b5 : i ≠ 27 := by omega
    have b6 : i ≠ 7 := by omega
    have b7 : i ≠ 6 := by omega
    have b8 : i ≠ 5 := by omega
    have c5 : i - 5 ≠ 0 := by omega
    have c6 : i - 6 ≠ 0 := by omega
    have c7 : i - 7 ≠ 0 := by omega
    simp [a0, a1, a5, a6, a7, a8, a9, b1, b2, b3, b4, b5, b6, b7, b8, c5, c6, c7]
  · simp [m27]
  · simp [m28]
  · simp [m29]
  · simp [m30]
  · simp [m31]
  · have a0 := testBit_eq_false_of_le_MODE_MASK (i := i) h (by omega)
    have a1 : ¬ i < 32 := by omega
    have c5 : i - 5 ≠ 0 := by omega
    have c6 : i - 6 ≠ 0 := by omega
    have c7 : i - 7 ≠ 0 := by omega
    have c27 : i - 27 ≠ 0 := by omega
    have c28 : i - 28 ≠ 0 := by omega
    have c29 : i - 29 ≠ 0 := by omega
    have c30 : i - 30 ≠ 0 := by omega
    have c31 : i - 31 ≠ 0 := by omega
    simp [a0, a1, c5, c6, c7, c27, c28, c29, c30, c31]

/-- C1 (amended), applied to the sample state. -/
theorem readCPSR_eq_cpsrLayout_witness :
    State.sample.arm_proc_mode.mode ≤ MODE_MASK ∧
    readCPSR State.sample =
      cpsrLayout State.sample.arm_proc_mode.mode
        (State.sample.arm_proc_mode.thumb || State.sample.flags.T)
        State.sample.arm_proc_mode.fiq State.sample.arm_proc_mode.irq State.sample.flags.Q
        State.sample.flags.V State.sample.flags.C State.sample.flags.Z State.sample.flags.N :=
  ⟨by decide, readCPSR_eq_cpsrLayout State.sample (by decide)⟩

/-- C2 (as stated, refuted): `writeCPSR(0x20)` on the initial state leaves the
Thumb flag of `arm_proc_mode` clear although bit 5 of the value is set. -/
theorem writeCPSR_thumb_not_written :
    Nat.testBit 0x20 5 = true ∧
    (writeCPSR State.init 0x20).arm_proc_mode.thumb = false ∧
    (writeCPSR State.init 0x20).arm_proc_mode.thumb ≠ Nat.testBit 0x20 5 := by
  decide

/-- C2 (amended): after `writeCPSR(v)`, from any prior state, the flags N, Z,
C, V, Q equal bits 31, 30, 29, 28, 27 of `v`, `flags.T` equals bit 5,
FIQ-disabled equals bit 6, IRQ-disabled equals bit 7, the mode equals
`v & 0x1F`, and the Thumb flag of `arm_proc_mode` keeps its prior value. -/
theorem writeCPSR_fields (s : State) (v : Nat) :
    (writeCPSR s v).flags.N = v.testBit 31 ∧
    (writeCPSR s v).flags.Z = v.testBit 30 ∧
    (writeCPSR s v).flags.C = v.testBit 29 ∧
    (writeCPSR s v).flags.V = v.testBit 28 ∧
    (writeCPSR s v).flags.Q = v.testBit 27 ∧
    (writeCPSR s v).flags.T = v.testBit 5 ∧
    (writeCPSR s v).arm_proc_mode.fiq = v.testBit 6 ∧
    (writeCPSR s v).arm_proc_mode.irq = v.testBit 7 ∧
    (writeCPSR s v).arm_proc_mode.mode = v &&& 0x1F ∧
    (writeCPSR s v).arm_proc_mode.thumb = s.arm_proc_mode.thumb := by
  simp [writeCPSR, getBit_mod_word, MODE_MASK]

/-- What `writeCPSR` does to the whole state, with the bits read by
`Nat.testBit`. -/
theorem writeCPSR_eq (s : State) (v : Nat) :
    writeCPSR s v =
      { s with
        flags :=
          { N := v.testBit 31, Z := v.testBit 30, C := v.testBit 29, V := v.testBit 28,
            Q := v.testBit 27, T := v.testBit 5 }
        arm_proc_mode :=
          { fiq := v.testBit 6, irq := v.testBit 7, thumb := s.arm_proc_mode.thumb,
            mode := v &&& MODE_MASK } } := by
  simp [writeCPSR, getBit_mod_word]

/-- C3 (as stated, refuted): with the Thumb flag of `arm_proc_mode` set and
`flags.T` clear, in User mode, `writeCPSR(readCPSR())` sets `flags.T`. -/
theorem writeCPSR_readCPSR_changes_flag_T :
    State.modeThumb.arm_proc_mode.mode = USER_MODE ∧
    State.modeThumb.flags.T = false ∧
    (writeCPSR State.modeThumb (readCPSR State.modeThumb)).flags.T = true ∧
    writeCPSR State.modeThumb (readCPSR State.modeThumb) ≠ State.modeThumb := by
  refine ⟨by decide, by decide, by decide, ?_⟩
  intro h
  have h2 : (writeCPSR State.modeThumb (readCPSR State.modeThumb)).flags.T
      = State.modeThumb.flags.T := by rw [h]
  revert h2
  decide

/-- The effect of `writeCPSR(readCPSR())` on a state whose mode fits the 5-bit
mode field: only `flags.T` can change, to the OR of the two Thumb bits. -/
theorem writeCPSR_readCPSR_eq (s : State) (h : s.arm_proc_mode.mode ≤ MODE_MASK) :
    writeCPSR s (readCPSR s) =
      { s with flags := { s.flags with T := s.arm_proc_mode.thumb || s.flags.T } } := by
  have m5 := testBit_eq_false_of_le_MODE_MASK (i := 5) h (by norm_num)
  have m6 := testBit_eq_false_of_le_MODE_MASK (i := 6) h (by norm_num)
  have m7 := testBit_eq_false_of_le_MODE_MASK (i := 7) h (by norm_num)
  rw [writeCPSR_eq, readCPSR_and_MODE_MASK s h]
  simp [testBit_readCPSR, m5, m6, m7]

/-- C3 (amended): for every state whose mode fits the 5-bit mode field (every
mode constant of `processor_mode` does) and in which `flags.T` is set whenever
the Thumb flag of `arm_proc_mode` is set, `writeCPSR(readCPSR())` leaves the
state unchanged. -/
theorem writeCPSR_readCPSR (s : State) (h : s.arm_proc_mode.mode ≤ MODE_MASK)
    (hT : s.arm_proc_mode.thumb = true → s.flags.T = true) :
    writeCPSR s (readCPSR s) = s := by
  rw [writeCPSR_readCPSR_eq s h]
  have e : (s.arm_proc_mode.thumb || s.flags.T) = s.flags.T := by
    cases h1 : s.arm_proc_mode.thumb
    · simp
    · simp [hT h1]
  rw [e]

/-- C3 (amended), applied to the sample state. -/
theorem writeCPSR_readCPSR_witness :
    State.sample.arm_proc_mode.mode ≤ MODE_MASK ∧
    (State.sample.arm_proc_mode.thumb = true → State.sample.flags.T = true) ∧
    writeCPSR State.sample (readCPSR State.sample) = State.sample :=
  ⟨by decide, by decide, writeCPSR_readCPSR State.sample (by decide) (by decide)⟩

/-- C4 (as stated, refuted): from a prior state with the Thumb flag of
`arm_proc_mode` set, `readCPSR()` right after `writeCPSR(0)` returns 0x20, not
`0 & 0xF80000FF = 0`. -/
theorem readCPSR_writeCPSR_keeps_thumb :
    readCPSR (writeCPSR State.modeThumb 0) = 0x20 ∧
    readCPSR (writeCPSR State.modeThumb 0) ≠ 0 &&& CPSR_TRACKED := by
  decide

/-- C4 (amended): for every value `x` and every prior state, `readCPSR()`
right after `writeCPSR(x)` returns `x & 0xF80000FF` with bit 5 additionally
set when the Thumb flag of `arm_proc_mode` was set before the write (so exactly
`x & 0xF80000FF` when that flag was clear); every untracked bit is zero. -/
theorem readCPSR_writeCPSR (s : State) (x : Nat) :
    readCPSR (writeCPSR s x) =
      ((x &&& CPSR_TRACKED) ||| (s.arm_proc_mode.thumb.toNat <<< 5)) := by
  have key : readCPSR (writeCPSR s x) =
      ((x &&& CPSR_TRACKED) ||| (s.arm_proc_mode.thumb.toNat <<< 5)) := by
    apply Nat.eq_of_testBit_eq
    intro i
    rw [testBit_readCPSR, writeCPSR_eq]
    simp only [Nat.testBit_or, Nat.testBit_and, Nat.testBit_shiftLeft, Nat.testBit_bool_to_nat,
      testBit_MODE_MASK, testBit_CPSR_TRACKED]
    have cases_i : i < 5 ∨ i = 5 ∨ i = 6 ∨ i = 7 ∨ (8 ≤ i ∧ i < 27) ∨ i = 27 ∨ i = 28 ∨
        i = 29 ∨ i = 30 ∨ i = 31 ∨ 32 ≤ i := by omega
    rcases cases_i with h0 | rfl | rfl | rfl | ⟨h8, h26⟩ | rfl | rfl | rfl | rfl | rfl | h32
    · have a1 : i < 32 := by omega
      have a2 : ¬ 5 ≤ i := by omega
      have a3 : i < 8 := by omega
      have b1 : i ≠ 31 := by omega
      have b2 : i ≠ 30 := by omega
      have b3 : i ≠ 29 := by omega
      have b4 : i ≠ 28 := by omega
      have b5 : i ≠ 27 := by omega
      have b6 : i ≠ 7 := by omega
      have b7 : i ≠ 6 := by omega
      have b8 : i ≠ 5 := by omega
      simp [h0, a1, a2, a3, b1, b2, b3, b4, b5, b6, b7, b8]
    · cases s.arm_proc_mode.thumb <;> simp
    · simp
    · simp
    · have a1 : i < 32 := by omega
      have a2 : ¬ i < 5 := by omega
      have a3 : ¬ i < 8 := by omega
      have a4 : ¬ 27 ≤ i := by omega
      have b1 : i ≠ 31 := by omega
      have b2 : i ≠ 30 := by omega
      have b3 : i ≠ 29 := by omega
      have b4 : i ≠ 28 := by omega
      have b5 : i ≠ 27 := by omega
      have b6 : i ≠ 7 := by omega
      have b7 : i ≠ 6 := by omega
      have b8 : i ≠ 5 := by omega
      have c5 : i - 5 ≠ 0 := by omega
      simp [a1, a2, a3, a4, b1, b2, b3, b4, b5, b6, b7, b8, c5]
    · simp
    · simp
    · simp
    · simp
    · simp
    · have a1 : ¬ i < 32 := by omega
      have a3 : ¬ i < 8 := by omega
      have c5 : i - 5 ≠ 0 := by omega
      simp [a1, a3, c5]
  exact key

/-! ## C5 – C6: the banked register router -/

/-- In the four exception modes that `bypass_write` and `bypass_read` name, a
write to a banked index is read back under the same mode and leaves the
generic bank and the mode record alone. -/
theorem bypass_write_read_banked (s : State) (i v : Nat)
    (h : (s.arm_proc_mode.mode = FIQ_MODE ∧ 8 ≤ i ∧ i ≤ 14) ∨
      ((s.arm_proc_mode.mode = IRQ_MODE ∨ s.arm_proc_mode.mode = SUPERVISOR_MODE ∨
        s.arm_proc_mode.mode = UNDEFINED_MODE) ∧ (i = 13 ∨ i = 14))) :
    bypass_read (bypass_write s i v) i = some v ∧
    (bypass_write s i v).RB = s.RB ∧
    (bypass_write s i v).arm_proc_mode = s.arm_proc_mode := by
  rcases h with ⟨hm, h8, h14⟩ | ⟨hm | hm | hm, rfl | rfl⟩
  · interval_cases i <;>
      simp [bypass_write, bypass_read, hm, USER_MODE, SYSTEM_MODE, FIQ_MODE]
  all_goals
    simp [bypass_write, bypass_read, hm, USER_MODE, SYSTEM_MODE, FIQ_MODE, IRQ_MODE,
      SUPERVISOR_MODE, UNDEFINED_MODE]

/-- In the six modes that `bypass_write` and `bypass_read` name, an index that
is not banked under the mode goes to the generic bank. -/
theorem bypass_unbanked (s : State) (i v : Nat)
    (h : (s.arm_proc_mode.mode = USER_MODE ∨ s.arm_proc_mode.mode = SYSTEM_MODE) ∨
      (s.arm_proc_mode.mode = FIQ_MODE ∧ (i < 8 ∨ 14 < i)) ∨
      ((s.arm_proc_mode.mode = IRQ_MODE ∨ s.arm_proc_mode.mode = SUPERVISOR_MODE ∨
        s.arm_proc_mode.mode = UNDEFINED_MODE) ∧ i ≠ 13 ∧ i ≠ 14)) :
    bypass_write s i v = RB_write s i v ∧ bypass_read s i = some (RB_read s i) := by
  rcases h with (hm | hm) | ⟨hm, hi⟩ | ⟨hm | hm | hm, h13, h14⟩
  · simp [bypass_write, bypass_read, hm]
  · simp [bypass_write, bypass_read, hm]
  · have e1 : bypass_write s i v = RB_write s i v := by
      simp only [bypass_write, hm, USER_MODE, SYSTEM_MODE, FIQ_MODE]
      rw [if_neg (by decide), if_pos trivial]
      split <;> first | omega | rfl
    have e2 : bypass_read s i = some (RB_read s i) := by
      simp only [bypass_read, hm, USER_MODE, SYSTEM_MODE, FIQ_MODE]
      rw [if_neg (by decide), if_pos trivial]
      split <;> first | omega | rfl
    exact ⟨e1, e2⟩
  all_goals
    simp [bypass_write, bypass_read, hm, h13, h14, USER_MODE, SYSTEM_MODE, FIQ_MODE,
      IRQ_MODE, SUPERVISOR_MODE, UNDEFINED_MODE]

/-- C5 (the code at the failing input): in mode 0x17 (Abort),
`bypass_write(13, 1)` stores nothing, and the following `bypass_read(13)`
reaches the end of the function without returning a value, so the written
value 1 is not read back. -/
theorem bypass_abort_banked_write_lost :
    bypass_write State.inAbort 13 1 = State.inAbort ∧
    bypass_read (bypass_write State.inAbort 13 1) 13 = none ∧
    bypass_read (bypass_write State.inAbort 13 1) 13 ≠ some 1 := by
  refine ⟨rfl, by decide, by decide⟩

/-- C6 (the code at the failing input): in mode 0x17 (Abort),
`bypass_write(0, 1)` leaves index 0 of the generic bank at its old value 0,
and `bypass_read(0)` reaches the end of the function without returning the
generic bank's value. -/
theorem bypass_abort_unbanked_write_lost :
    RB_read State.inAbort 0 = 0 ∧
    RB_read (bypass_write State.inAbort 0 1) 0 = 0 ∧
    RB_read (bypass_write State.inAbort 0 1) 0 ≠ 1 ∧
    bypass_read State.inAbort 0 = none ∧
    bypass_read State.inAbort 0 ≠ some (RB_read State.inAbort 0) := by
  decide

/-! ## C7 – C10: the exception dispatcher -/

theorem and_one_shiftLeft_ne_zero (x p : Nat) :
    (x &&& (1 <<< p) ≠ 0) ↔ x.testBit p = true := by
  have h := getBit_eq_testBit x p
  unfold getBit at h
  rw [← h]
  simp

/-- The mode field of the status word written on exception entry, for the
kinds that do not touch bit 6. -/
theorem entry_cpsr_mode (x M : Nat) (hM : M ≤ MODE_MASK) :
    ((((x &&& not32 MODE_MASK) ||| M) &&& not32 (1 <<< 5)) ||| (1 <<< 7)) &&& MODE_MASK
      = M := by
  apply Nat.eq_of_testBit_eq
  intro i
  simp only [Nat.testBit_or, Nat.testBit_and, testBit_not32, testBit_MODE_MASK,
    Nat.one_shiftLeft, Nat.testBit_two_pow]
  by_cases hi : i < 5
  · have a1 : i < 32 := by omega
    have a2 : ¬ 5 = i := by omega
    have a3 : ¬ 7 = i := by omega
    simp [hi, a1, a2, a3]
  · have := testBit_eq_false_of_le_MODE_MASK hM (Nat.le_of_not_lt hi)
    simp [hi, this]

/-- The mode field of the status word written on exception entry, for the
kinds that also set bit 6. -/
theorem entry_cpsr_mode_fiq (x M : Nat) (hM : M ≤ MODE_MASK) :
    (((((x &&& not32 MODE_MASK) ||| M) ||| (1 <<< 6)) &&& not32 (1 <<< 5)) ||| (1 <<< 7))
      &&& MODE_MASK = M := by
  apply Nat.eq_of_testBit_eq
  intro i
  simp only [Nat.testBit_or, Nat.testBit_and, testBit_not32, testBit_MODE_MASK,
    Nat.one_shiftLeft, Nat.testBit_two_pow]
  by_cases hi : i < 5
  · have a1 : i < 32 := by omega
    have a2 : ¬ 5 = i := by omega
    have a3 : ¬ 7 = i := by omega
    have a4 : ¬ 6 = i := by omega
    simp [hi, a1, a2, a3, a4]
  · have := testBit_eq_false_of_le_MODE_MASK hM (Nat.le_of_not_lt hi)
    simp [hi, this]

theorem service_interrupt_reset_eq (cfg : Config) (s : State) :
    service_interrupt cfg s EXCEPTION_RESET =
      some (writeCPSR
        { s with
          R14_svc := 0, SPSR_svc := 0,
          ac_pc := if cfg.HIGH_VECTOR then RESET_ADDR_HI else RESET_ADDR }
        (((((readCPSR s &&& not32 MODE_MASK) ||| SUPERVISOR_MODE) ||| (1 <<< 6))
          &&& not32 (1 <<< 5)) ||| (1 <<< 7))) := by
  unfold service_interrupt service_interrupt_run
  have h1 : ¬ (EXCEPTION_RESET = EXCEPTION_FIQ) := by decide
  have h2 : ¬ (EXCEPTION_RESET = EXCEPTION_IRQ) := by decide
  simp only [h1, h2, and_false, if_false, if_true]

theorem service_interrupt_swi_eq (cfg : Config) (s : State) :
    service_interrupt cfg s EXCEPTION_SWI =
      some (writeCPSR
        { s with
          R14_svc := s.ac_pc, SPSR_svc := readCPSR s,
          ac_pc := if cfg.HIGH_VECTOR then SWI_ADDR_HI else SWI_ADDR }
        ((((readCPSR s &&& not32 MODE_MASK) ||| SUPERVISOR_MODE)
          &&& not32 (1 <<< 5)) ||| (1 <<< 7))) := by
  unfold service_interrupt service_interrupt_run
  have h1 : ¬ (EXCEPTION_SWI = EXCEPTION_FIQ) := by decide
  have h2 : ¬ (EXCEPTION_SWI = EXCEPTION_IRQ) := by decide
  have h3 : ¬ (EXCEPTION_SWI = EXCEPTION_RESET) := by decide
  have h4 : ¬ (EXCEPTION_SWI = EXCEPTION_UNDEFINED_INSTR) := by decide
  simp only [h1, h2, h3, h4, and_false, if_false, if_true]

theorem service_interrupt_data_abort_eq (cfg : Config) (s : State) :
    service_interrupt cfg s EXCEPTION_DATA_ABORT =
      some (writeCPSR
        { s with
          R14_abt := (s.ac_pc + 4) % 2 ^ 32, SPSR_abt := readCPSR s,
          ac_pc := if cfg.HIGH_VECTOR then DATA_ABORT_ADDR_HI else DATA_ABORT_ADDR }
        ((((readCPSR s &&& not32 MODE_MASK) ||| cfg.ABORT_MODE)
          &&& not32 (1 <<< 5)) ||| (1 <<< 7))) := by
  unfold service_interrupt service_interrupt_run
  have h1 : ¬ (EXCEPTION_DATA_ABORT = EXCEPTION_FIQ) := by decide
  have h2 : ¬ (EXCEPTION_DATA_ABORT = EXCEPTION_IRQ) := by decide
  have h3 : ¬ (EXCEPTION_DATA_ABORT = EXCEPTION_RESET) := by decide
  have h4 : ¬ (EXCEPTION_DATA_ABORT = EXCEPTION_UNDEFINED_INSTR) := by decide
  have h5 : ¬ (EXCEPTION_DATA_ABORT = EXCEPTION_SWI) := by decide
  have h6 : ¬ (EXCEPTION_DATA_ABORT = EXCEPTION_PREFETCH_ABORT) := by decide
  simp only [h1, h2, h3, h4, h5, h6, and_false, if_false, if_true]

/-- C7: a masked interrupt is a no-op. When bit 6 of the CPSR is set,
`service_interrupt(EXCEPTION_FIQ)` returns with the whole state unchanged, and
when bit 7 is set, so does `service_interrupt(EXCEPTION_IRQ)`. -/
theorem service_interrupt_masked (cfg : Config) (s : State) (k : Nat)
    (h : (k = EXCEPTION_FIQ ∧ (readCPSR s).testBit 6 = true) ∨
      (k = EXCEPTION_IRQ ∧ (readCPSR s).testBit 7 = true)) :
    service_interrupt cfg s k = some s := by
  unfold service_interrupt service_interrupt_run
  dsimp only
  rcases h with ⟨rfl, h6⟩ | ⟨rfl, h7⟩
  · have c : readCPSR s &&& (1 <<< 6) ≠ 0 ∧ EXCEPTION_FIQ = EXCEPTION_FIQ :=
      ⟨(and_one_shiftLeft_ne_zero _ 6).2 h6, rfl⟩
    rw [if_pos c]
  · have c : readCPSR s &&& (1 <<< 7) ≠ 0 ∧ EXCEPTION_IRQ = EXCEPTION_IRQ :=
      ⟨(and_one_shiftLeft_ne_zero _ 7).2 h7, rfl⟩
    have d : ¬ (readCPSR s &&& (1 <<< 6) ≠ 0 ∧ EXCEPTION_IRQ = EXCEPTION_FIQ) := by
      intro hd
      exact absurd hd.2 (by decide)
    rw [if_neg d, if_pos c]

/-- C7, applied to a state with both interrupt kinds disabled. -/
theorem service_interrupt_masked_witness :
    ((EXCEPTION_FIQ = EXCEPTION_FIQ ∧ (readCPSR State.masked).testBit 6 = true) ∨
      (EXCEPTION_FIQ = EXCEPTION_IRQ ∧ (readCPSR State.masked).testBit 7 = true)) ∧
    service_interrupt Config.low State.masked EXCEPTION_FIQ = some State.masked ∧
    ((EXCEPTION_IRQ = EXCEPTION_FIQ ∧ (readCPSR State.masked).testBit 6 = true) ∨
      (EXCEPTION_IRQ = EXCEPTION_IRQ ∧ (readCPSR State.masked).testBit 7 = true)) ∧
    service_interrupt Config.low State.masked EXCEPTION_IRQ = some State.masked :=
  ⟨Or.inl ⟨rfl, by decide⟩,
    service_interrupt_masked Config.low State.masked EXCEPTION_FIQ (Or.inl ⟨rfl, by decide⟩),
    Or.inr ⟨rfl, by decide⟩,
    service_interrupt_masked Config.low State.masked EXCEPTION_IRQ (Or.inr ⟨rfl, by decide⟩)⟩

/-- C8: from every state, `service_interrupt(EXCEPTION_RESET)` returns with
mode Supervisor (0x13), `R14_svc` = 0, `SPSR_svc` = 0, FIQ disabled, and the
program counter at the reset vector (0xFFFF0000 with high vectors, 0
otherwise). -/
theorem service_interrupt_reset (cfg : Config) (s : State) :
    ∃ t, service_interrupt cfg s EXCEPTION_RESET = some t ∧
      t.arm_proc_mode.mode = 0x13 ∧
      t.R14_svc = 0 ∧
      t.SPSR_svc = 0 ∧
      t.arm_proc_mode.fiq = true ∧
      t.ac_pc = (if cfg.HIGH_VECTOR then 0xFFFF0000 else 0x00000000) := by
  refine ⟨_, service_interrupt_reset_eq cfg s, ?_, ?_, ?_, ?_, ?_⟩
  · rw [writeCPSR_eq]
    exact entry_cpsr_mode_fiq (readCPSR s) SUPERVISOR_MODE (by decide)
  · rw [writeCPSR_eq]
  · rw [writeCPSR_eq]
  · rw [writeCPSR_eq]
    simp only [Nat.testBit_or, Nat.testBit_and, testBit_not32, Nat.one_shiftLeft,
      Nat.testBit_two_pow]
    simp
  · rw [writeCPSR_eq]
    rfl

/-- C9: from every state with program counter A, provided the constant
`ABORT_MODE` fits the 5-bit mode field, `service_interrupt(EXCEPTION_DATA_ABORT)`
returns with `R14_abt` = A + 4 (mod 2^32), `SPSR_abt` = the prior `readCPSR()`,
the program counter at the data-abort vector (0xFFFF0010 with high vectors,
0x10 otherwise), IRQ disabled and mode `ABORT_MODE`. -/
theorem service_interrupt_data_abort (cfg : Config) (s : State)
    (hA : cfg.ABORT_MODE ≤ MODE_MASK) :
    ∃ t, service_interrupt cfg s EXCEPTION_DATA_ABORT = some t ∧
      t.R14_abt = (s.ac_pc + 4) % 2 ^ 32 ∧
      t.SPSR_abt = readCPSR s ∧
      t.ac_pc = (if cfg.HIGH_VECTOR then 0xFFFF0010 else 0x00000010) ∧
      t.arm_proc_mode.irq = true ∧
      t.arm_proc_mode.mode = cfg.ABORT_MODE := by
  refine ⟨_, service_interrupt_data_abort_eq cfg s, ?_, ?_, ?_, ?_, ?_⟩
  · rw [writeCPSR_eq]
  · rw [writeCPSR_eq]
  · rw [writeCPSR_eq]
    rfl
  · rw [writeCPSR_eq]
    simp only [Nat.testBit_or, Nat.testBit_and, testBit_not32, Nat.one_shiftLeft,
      Nat.testBit_two_pow]
    simp
  · rw [writeCPSR_eq]
    exact entry_cpsr_mode (readCPSR s) cfg.ABORT_MODE hA

/-- C9, applied to the sample state with `ABORT_MODE` = 0x17 and low
vectors. -/
theorem service_interrupt_data_abort_witness :
    Config.low.ABORT_MODE ≤ MODE_MASK ∧
    ∃ t, service_interrupt Config.low State.sample EXCEPTION_DATA_ABORT = some t ∧
      t.R14_abt = (State.sample.ac_pc + 4) % 2 ^ 32 ∧
      t.SPSR_abt = readCPSR State.sample ∧
      t.ac_pc = (if Config.low.HIGH_VECTOR then 0xFFFF0010 else 0x00000010) ∧
      t.arm_proc_mode.irq = true ∧
      t.arm_proc_mode.mode = Config.low.ABORT_MODE :=
  ⟨by decide, service_interrupt_data_abort Config.low State.sample (by decide)⟩

/-- C10: from every state with program counter A,
`service_interrupt(EXCEPTION_SWI)` returns with `R14_svc` = A, `SPSR_svc` = the
prior `readCPSR()`, mode Supervisor, and the program counter at the SWI vector
(0xFFFF0008 with high vectors, 0x8 otherwise). -/
theorem service_interrupt_swi (cfg : Config) (s : State) :
    ∃ t, service_interrupt cfg s EXCEPTION_SWI = some t ∧
      t.R14_svc = s.ac_pc ∧
      t.SPSR_svc = readCPSR s ∧
      t.arm_proc_mode.mode = SUPERVISOR_MODE ∧
      t.ac_pc = (if cfg.HIGH_VECTOR then 0xFFFF0008 else 0x00000008) := by
  refine ⟨_, service_interrupt_swi_eq cfg s, ?_, ?_, ?_, ?_⟩
  · rw [writeCPSR_eq]
  · rw [writeCPSR_eq]
  · rw [writeCPSR_eq]
    exact entry_cpsr_mode (readCPSR s) SUPERVISOR_MODE (by decide)
  · rw [writeCPSR_eq]
    rfl

/-! ## C11 – C12: the remaining rows of the transition table -/

theorem service_interrupt_undefined_eq (cfg : Config) (s : State) :
    service_interrupt cfg s EXCEPTION_UNDEFINED_INSTR =
      some (writeCPSR
        { s with
          R14_und := s.ac_pc, SPSR_und := readCPSR s,
          ac_pc := if cfg.HIGH_VECTOR then UNDEFINED_ADDR_HI else UNDEFINED_ADDR }
        ((((readCPSR s &&& not32 MODE_MASK) ||| UNDEFINED_MODE)
          &&& not32 (1 <<< 5)) ||| (1 <<< 7))) := by
  unfold service_interrupt service_interrupt_run
  have h1 : ¬ (EXCEPTION_UNDEFINED_INSTR = EXCEPTION_FIQ) := by decide
  have h2 : ¬ (EXCEPTION_UNDEFINED_INSTR = EXCEPTION_IRQ) := by decide
  have h3 : ¬ (EXCEPTION_UNDEFINED_INSTR = EXCEPTION_RESET) := by decide
  simp only [h1, h2, h3, and_false, if_false, if_true]

theorem service_interrupt_prefetch_abort_eq (cfg : Config) (s : State) :
    service_interrupt cfg s EXCEPTION_PREFETCH_ABORT =
      some (writeCPSR
        { s with
          R14_abt := s.ac_pc, SPSR_abt := readCPSR s,
          ac_pc := if cfg.HIGH_VECTOR then PREFETCH_ABORT_ADDR_HI else PREFETCH_ABORT_ADDR }
        ((((readCPSR s &&& not32 MODE_MASK) ||| cfg.ABORT_MODE)
          &&& not32 (1 <<< 5)) ||| (1 <<< 7))) := by
  unfold service_interrupt service_interrupt_run
  have h1 : ¬ (EXCEPTION_PREFETCH_ABORT = EXCEPTION_FIQ) := by decide
  have h2 : ¬ (EXCEPTION_PREFETCH_ABORT = EXCEPTION_IRQ) := by decide
  have h3 : ¬ (EXCEPTION_PREFETCH_ABORT = EXCEPTION_RESET) := by decide
  have h4 : ¬ (EXCEPTION_PREFETCH_ABORT = EXCEPTION_UNDEFINED_INSTR) := by decide
  have h5 : ¬ (EXCEPTION_PREFETCH_ABORT = EXCEPTION_SWI) := by decide
  simp only [h1, h2, h3, h4, h5, and_false, if_false, if_true]

theorem and_one_shiftLeft_eq_zero (x p : Nat) (h : x.testBit p = false) :
    x &&& (1 <<< p) = 0 := by
  by_contra hne
  have := (and_one_shiftLeft_ne_zero x p).1 hne
  rw [h] at this
  exact Bool.false_ne_true this

theorem service_interrupt_irq_eq (cfg : Config) (s : State)
    (h7 : (readCPSR s).testBit 7 = false) :
    service_interrupt cfg s EXCEPTION_IRQ =
      some (writeCPSR
        { s with
          R14_irq := (s.ac_pc + 4) % 2 ^ 32, SPSR_irq := readCPSR s,
          ac_pc := if cfg.HIGH_VECTOR then IRQ_ADDR_HI else IRQ_ADDR }
        ((((readCPSR s &&& not32 MODE_MASK) ||| IRQ_MODE)
          &&& not32 (1 <<< 5)) ||| (1 <<< 7))) := by
  unfold service_interrupt service_interrupt_run
  have h1 : ¬ (EXCEPTION_IRQ = EXCEPTION_FIQ) := by decide
  have h3 : ¬ (EXCEPTION_IRQ = EXCEPTION_RESET) := by decide
  have h4 : ¬ (EXCEPTION_IRQ = EXCEPTION_UNDEFINED_INSTR) := by decide
  have h5 : ¬ (EXCEPTION_IRQ = EXCEPTION_SWI) := by decide
  have h6 : ¬ (EXCEPTION_IRQ = EXCEPTION_PREFETCH_ABORT) := by decide
  have h8 : ¬ (EXCEPTION_IRQ = EXCEPTION_DATA_ABORT) := by decide
  have c : readCPSR s &&& (1 <<< 7) = 0 := and_one_shiftLeft_eq_zero _ 7 h7
  simp only [h1, h3, h4, h5, h6, h8, c, ne_eq, not_true_eq_false, and_false, false_and,
    if_false, if_true]

theorem service_interrupt_fiq_eq (cfg : Config) (s : State)
    (h6 : (readCPSR s).testBit 6 = false) :
    service_interrupt cfg s EXCEPTION_FIQ =
      some (writeCPSR
        { s with
          R14_fiq := (s.ac_pc + 4) % 2 ^ 32, SPSR_fiq := readCPSR s,
          ac_pc := if cfg.HIGH_VECTOR then FIQ_ADDR_HI else FIQ_ADDR }
        (((((readCPSR s &&& not32 MODE_MASK) ||| FIQ_MODE) ||| (1 <<< 6))
          &&& not32 (1 <<< 5)) ||| (1 <<< 7))) := by
  unfold service_interrupt service_interrupt_run
  have h1 : ¬ (EXCEPTION_FIQ = EXCEPTION_IRQ) := by decide
  have h3 : ¬ (EXCEPTION_FIQ = EXCEPTION_RESET) := by decide
  have h4 : ¬ (EXCEPTION_FIQ = EXCEPTION_UNDEFINED_INSTR) := by decide
  have h5 : ¬ (EXCEPTION_FIQ = EXCEPTION_SWI) := by decide
  have h7 : ¬ (EXCEPTION_FIQ = EXCEPTION_PREFETCH_ABORT) := by decide
  have h8 : ¬ (EXCEPTION_FIQ = EXCEPTION_DATA_ABORT) := by decide
  have c : readCPSR s &&& (1 <<< 6) = 0 := and_one_shiftLeft_eq_zero _ 6 h6
  simp only [h1, h3, h4, h5, h7, h8, c, ne_eq, not_true_eq_false, and_false, false_and,
    if_false, if_true]

/-- C11: from every state with program counter A, provided the constant
`ABORT_MODE` fits the 5-bit mode field, `service_interrupt` returns for the two
kinds below whatever the interrupt-disable bits are.
`EXCEPTION_UNDEFINED_INSTR` gives `R14_und` = A, `SPSR_und` = the prior
`readCPSR()`, mode 0x1B and pc 0x4 (0xFFFF0004 with high vectors);
`EXCEPTION_PREFETCH_ABORT` gives `R14_abt` = A, `SPSR_abt` = the prior
`readCPSR()`, mode `ABORT_MODE` and pc 0xC (0xFFFF000C with high vectors). -/
theorem service_interrupt_undefined_prefetch (cfg : Config) (s : State)
    (hA : cfg.ABORT_MODE ≤ MODE_MASK) :
    (∃ t, service_interrupt cfg s EXCEPTION_UNDEFINED_INSTR = some t ∧
      t.R14_und = s.ac_pc ∧
      t.SPSR_und = readCPSR s ∧
      t.arm_proc_mode.mode = 0x1B ∧
      t.ac_pc = (if cfg.HIGH_VECTOR then 0xFFFF0004 else 0x00000004)) ∧
    (∃ t, service_interrupt cfg s EXCEPTION_PREFETCH_ABORT = some t ∧
      t.R14_abt = s.ac_pc ∧
      t.SPSR_abt = readCPSR s ∧
      t.arm_proc_mode.mode = cfg.ABORT_MODE ∧
      t.ac_pc = (if cfg.HIGH_VECTOR then 0xFFFF000C else 0x0000000C)) := by
  refine ⟨⟨_, service_interrupt_undefined_eq cfg s, ?_, ?_, ?_, ?_⟩,
    ⟨_, service_interrupt_prefetch_abort_eq cfg s, ?_, ?_, ?_, ?_⟩⟩
  · rw [writeCPSR_eq]
  · rw [writeCPSR_eq]
  · rw [writeCPSR_eq]
    exact entry_cpsr_mode (readCPSR s) UNDEFINED_MODE (by decide)
  · rw [writeCPSR_eq]
    rfl
  · rw [writeCPSR_eq]
  · rw [writeCPSR_eq]
  · rw [writeCPSR_eq]
    exact entry_cpsr_mode (readCPSR s) cfg.ABORT_MODE hA
  · rw [writeCPSR_eq]
    rfl

/-- C11, applied to the state with both interrupt kinds disabled, with
`ABORT_MODE` = 0x17 and low vectors. -/
theorem service_interrupt_undefined_prefetch_witness :
    Config.low.ABORT_MODE ≤ MODE_MASK ∧
    (∃ t, service_interrupt Config.low State.masked EXCEPTION_UNDEFINED_INSTR = some t ∧
      t.R14_und = State.masked.ac_pc ∧
      t.SPSR_und = readCPSR State.masked ∧
      t.arm_proc_mode.mode = 0x1B ∧
      t.ac_pc = (if Config.low.HIGH_VECTOR then 0xFFFF0004 else 0x00000004)) ∧
    (∃ t, service_interrupt Config.low State.masked EXCEPTION_PREFETCH_ABORT = some t ∧
      t.R14_abt = State.masked.ac_pc ∧
      t.SPSR_abt = readCPSR State.masked ∧
      t.arm_proc_mode.mode = Config.low.ABORT_MODE ∧
      t.ac_pc = (if Config.low.HIGH_VECTOR then 0xFFFF000C else 0x0000000C)) :=
  ⟨by decide, service_interrupt_undefined_prefetch Config.low State.masked (by decide)⟩

/-- C12: `service_interrupt(EXCEPTION_IRQ)` from any state `s` with CPSR bit 7
clear and program counter A gives `R14_irq` = A + 4 (mod 2^32), `SPSR_irq` =
the prior `readCPSR()`, mode 0x12 and pc 0x18 (0xFFFF0018 with high vectors);
`service_interrupt(EXCEPTION_FIQ)` from any state `u` with CPSR bit 6 clear and
program counter A gives `R14_fiq` = A + 4 (mod 2^32), `SPSR_fiq` = the prior
`readCPSR()`, mode 0x11, pc 0x1C (0xFFFF001C with high vectors) and
FIQ-disabled set. -/
theorem service_interrupt_irq_fiq (cfg : Config) (s u : State)
    (h7 : (readCPSR s).testBit 7 = false) (h6 : (readCPSR u).testBit 6 = false) :
    (∃ t, service_interrupt cfg s EXCEPTION_IRQ = some t ∧
      t.R14_irq = (s.ac_pc + 4) % 2 ^ 32 ∧
      t.SPSR_irq = readCPSR s ∧
      t.arm_proc_mode.mode = 0x12 ∧
      t.ac_pc = (if cfg.HIGH_VECTOR then 0xFFFF0018 else 0x00000018)) ∧
    (∃ t, service_interrupt cfg u EXCEPTION_FIQ = some t ∧
      t.R14_fiq = (u.ac_pc + 4) % 2 ^ 32 ∧
      t.SPSR_fiq = readCPSR u ∧
      t.arm_proc_mode.mode = 0x11 ∧
      t.ac_pc = (if cfg.HIGH_VECTOR then 0xFFFF001C else 0x0000001C) ∧
      t.arm_proc_mode.fiq = true) := by
  refine ⟨⟨_, service_interrupt_irq_eq cfg s h7, ?_, ?_, ?_, ?_⟩,
    ⟨_, service_interrupt_fiq_eq cfg u h6, ?_, ?_, ?_, ?_, ?_⟩⟩
  · rw [writeCPSR_eq]
  · rw [writeCPSR_eq]
  · rw [writeCPSR_eq]
    exact entry_cpsr_mode (readCPSR s) IRQ_MODE (by decide)
  · rw [writeCPSR_eq]
    rfl
  · rw [writeCPSR_eq]
  · rw [writeCPSR_eq]
  · rw [writeCPSR_eq]
    exact entry_cpsr_mode_fiq (readCPSR u) FIQ_MODE (by decide)
  · rw [writeCPSR_eq]
    rfl
  · rw [writeCPSR_eq]
    simp only [Nat.testBit_or, Nat.testBit_and, testBit_not32, Nat.one_shiftLeft,
      Nat.testBit_two_pow]
    simp

/-- C12, applied to the initial state (User mode, both interrupt kinds
enabled). -/
theorem service_interrupt_irq_fiq_witness :
    (readCPSR State.init).testBit 7 = false ∧ (readCPSR State.init).testBit 6 = false ∧
    ((∃ t, service_interrupt Config.low State.init EXCEPTION_IRQ = some t ∧
      t.R14_irq = (State.init.ac_pc + 4) % 2 ^ 32 ∧
      t.SPSR_irq = readCPSR State.init ∧
      t.arm_proc_mode.mode = 0x12 ∧
      t.ac_pc = (if Config.low.HIGH_VECTOR then 0xFFFF0018 else 0x00000018)) ∧
    (∃ t, service_interrupt Config.low State.init EXCEPTION_FIQ = some t ∧
      t.R14_fiq = (State.init.ac_pc + 4) % 2 ^ 32 ∧
      t.SPSR_fiq = readCPSR State.init ∧
      t.arm_proc_mode.mode = 0x11 ∧
      t.ac_pc = (if Config.low.HIGH_VECTOR then 0xFFFF001C else 0x0000001C) ∧
      t.arm_proc_mode.fiq = true)) :=
  ⟨by decide, by decide,
    service_interrupt_irq_fiq Config.low State.init State.init (by decide) (by decide)⟩

/-! ## C13 – C14: the status word after exception entry and after return -/

theorem testBit_7_readCPSR_writeCPSR (s : State) (y : Nat) :
    (readCPSR (writeCPSR s y)).testBit 7 = y.testBit 7 := by
  rw [testBit_readCPSR, writeCPSR_eq]
  simp [testBit_MODE_MASK]

theorem testBit_5_readCPSR_writeCPSR (s : State) (y : Nat) :
    (readCPSR (writeCPSR s y)).testBit 5 = (s.arm_proc_mode.thumb || y.testBit 5) := by
  rw [testBit_readCPSR, writeCPSR_eq]
  simp [testBit_MODE_MASK]

/-- Bit 7 of the status word written at the end of `service_interrupt`. -/
theorem entry_cpsr_testBit_7 (z : Nat) :
    ((z &&& not32 (1 <<< 5)) ||| (1 <<< 7)).testBit 7 = true := by
  simp only [Nat.testBit_or, Nat.testBit_and, testBit_not32, Nat.one_shiftLeft,
    Nat.testBit_two_pow]
  simp

/-- Bit 5 of the status word written at the end of `service_interrupt`. -/
theorem entry_cpsr_testBit_5 (z : Nat) :
    ((z &&& not32 (1 <<< 5)) ||| (1 <<< 7)).testBit 5 = false := by
  simp only [Nat.testBit_or, Nat.testBit_and, testBit_not32, Nat.one_shiftLeft,
    Nat.testBit_two_pow]
  simp

/-- Bits 7 and 5 of the status word read back after `service_interrupt`, and
`flags.T`: for each of the seven exception kinds and every state in which the
kind is not masked, bit 7 is set, `flags.T` is clear, and bit 5 equals the
Thumb flag `arm_proc_mode` had before the call. -/
theorem service_interrupt_cpsr_bits (cfg : Config) (s : State) (k : Nat) (hk : k < 7)
    (hF : ¬ (k = EXCEPTION_FIQ ∧ (readCPSR s).testBit 6 = true))
    (hI : ¬ (k = EXCEPTION_IRQ ∧ (readCPSR s).testBit 7 = true)) :
    ∃ t, service_interrupt cfg s k = some t ∧
      (readCPSR t).testBit 7 = true ∧
      t.flags.T = false ∧
      (readCPSR t).testBit 5 = s.arm_proc_mode.thumb := by
  have fin : ∀ (u : State) (z : Nat), u.arm_proc_mode.thumb = s.arm_proc_mode.thumb →
      (readCPSR (writeCPSR u ((z &&& not32 (1 <<< 5)) ||| (1 <<< 7)))).testBit 7 = true ∧
      (writeCPSR u ((z &&& not32 (1 <<< 5)) ||| (1 <<< 7))).flags.T = false ∧
      (readCPSR (writeCPSR u ((z &&& not32 (1 <<< 5)) ||| (1 <<< 7)))).testBit 5
        = s.arm_proc_mode.thumb := by
    intro u z hu
    rw [testBit_7_readCPSR_writeCPSR, testBit_5_readCPSR_writeCPSR, entry_cpsr_testBit_7,
      entry_cpsr_testBit_5, hu, writeCPSR_eq]
    exact ⟨rfl, entry_cpsr_testBit_5 z, by simp⟩
  interval_cases k
  · exact ⟨_, service_interrupt_reset_eq cfg s, fin _ _ rfl⟩
  · exact ⟨_, service_interrupt_undefined_eq cfg s, fin _ _ rfl⟩
  · exact ⟨_, service_interrupt_swi_eq cfg s, fin _ _ rfl⟩
  · exact ⟨_, service_interrupt_prefetch_abort_eq cfg s, fin _ _ rfl⟩
  · exact ⟨_, service_interrupt_data_abort_eq cfg s, fin _ _ rfl⟩
  · have h7 : (readCPSR s).testBit 7 = false := by
      cases hb : (readCPSR s).testBit 7
      · rfl
      · exact absurd ⟨rfl, hb⟩ hI
    exact ⟨_, service_interrupt_irq_eq cfg s h7, fin _ _ rfl⟩
  · have h6 : (readCPSR s).testBit 6 = false := by
      cases hb : (readCPSR s).testBit 6
      · rfl
      · exact absurd ⟨rfl, hb⟩ hF
    exact ⟨_, service_interrupt_fiq_eq cfg s h6, fin _ _ rfl⟩

/-- What `writeCPSR` makes of a status word read from another state `s` whose
mode fits the 5-bit mode field. -/
theorem writeCPSR_readCPSR_of (t s : State) (h : s.arm_proc_mode.mode ≤ MODE_MASK) :
    writeCPSR t (readCPSR s) =
      { t with
        flags := { s.flags with T := s.arm_proc_mode.thumb || s.flags.T }
        arm_proc_mode := { s.arm_proc_mode with thumb := t.arm_proc_mode.thumb } } := by
  have m5 := testBit_eq_false_of_le_MODE_MASK (i := 5) h (by norm_num)
  have m6 := testBit_eq_false_of_le_MODE_MASK (i := 6) h (by norm_num)
  have m7 := testBit_eq_false_of_le_MODE_MASK (i := 7) h (by norm_num)
  rw [writeCPSR_eq, readCPSR_and_MODE_MASK s h]
  simp [testBit_readCPSR, m5, m6, m7]

theorem SPSRtoCPSR_of_IRQ_MODE (t : State) (h : t.arm_proc_mode.mode = IRQ_MODE) :
    SPSRtoCPSR t = writeCPSR t t.SPSR_irq := by
  unfold SPSRtoCPSR
  rw [h, if_neg (by decide), if_pos rfl]

/-- C14 (as stated, refuted): from the initial state with only the Thumb flag
of `arm_proc_mode` set (User mode, IRQ enabled, `flags.T` clear),
`service_interrupt(EXCEPTION_IRQ)` followed by `SPSRtoCPSR()` ends with
`flags.T` set. -/
theorem irq_then_SPSRtoCPSR_changes_flag_T :
    State.modeThumb.arm_proc_mode.mode = USER_MODE ∧
    State.modeThumb.arm_proc_mode.irq = false ∧
    State.modeThumb.flags.T = false ∧
    (service_interrupt Config.low State.modeThumb EXCEPTION_IRQ).map
        (fun t => (SPSRtoCPSR t).flags.T) = some true := by
  decide

/-- C14 (amended): for every state whose mode fits the 5-bit mode field (every
mode constant of `processor_mode` does) and in which IRQ is not disabled,
`service_interrupt(EXCEPTION_IRQ)` followed by `SPSRtoCPSR()` restores the
mode, FIQ-disabled, IRQ-disabled and Thumb fields of `arm_proc_mode` and the
flags N, Z, C, V, Q to the values they had before the IRQ, and leaves `flags.T`
equal to the OR of the prior Thumb flag of `arm_proc_mode` and the prior
`flags.T`; so all six flags are restored whenever `flags.T` was set in every
case where the Thumb flag of `arm_proc_mode` was. -/
theorem irq_then_SPSRtoCPSR (cfg : Config) (s : State)
    (h : s.arm_proc_mode.mode ≤ MODE_MASK) (hI : s.arm_proc_mode.irq = false) :
    ∃ t, service_interrupt cfg s EXCEPTION_IRQ = some t ∧
      (SPSRtoCPSR t).arm_proc_mode = s.arm_proc_mode ∧
      (SPSRtoCPSR t).flags.N = s.flags.N ∧ (SPSRtoCPSR t).flags.Z = s.flags.Z ∧
      (SPSRtoCPSR t).flags.C = s.flags.C ∧ (SPSRtoCPSR t).flags.V = s.flags.V ∧
      (SPSRtoCPSR t).flags.Q = s.flags.Q ∧
      (SPSRtoCPSR t).flags.T = (s.arm_proc_mode.thumb || s.flags.T) ∧
      ((s.arm_proc_mode.thumb = true → s.flags.T = true) →
        (SPSRtoCPSR t).flags = s.flags) := by
  have h7 : (readCPSR s).testBit 7 = false := by
    rw [testBit_readCPSR]
    simp [hI, testBit_eq_false_of_le_MODE_MASK (i := 7) h (by norm_num)]
  have hmode : ∀ u : State,
      (writeCPSR u ((((readCPSR s &&& not32 MODE_MASK) ||| IRQ_MODE) &&& not32 (1 <<< 5))
        ||| (1 <<< 7))).arm_proc_mode.mode = IRQ_MODE := by
    intro u
    rw [writeCPSR_eq]
    exact entry_cpsr_mode (readCPSR s) IRQ_MODE (by decide)
  have key : ∀ u : State, u.arm_proc_mode.thumb = s.arm_proc_mode.thumb →
      u.SPSR_irq = readCPSR s →
      (SPSRtoCPSR (writeCPSR u ((((readCPSR s &&& not32 MODE_MASK) ||| IRQ_MODE)
          &&& not32 (1 <<< 5)) ||| (1 <<< 7)))).arm_proc_mode = s.arm_proc_mode ∧
      (SPSRtoCPSR (writeCPSR u ((((readCPSR s &&& not32 MODE_MASK) ||| IRQ_MODE)
          &&& not32 (1 <<< 5)) ||| (1 <<< 7)))).flags
        = { s.flags with T := s.arm_proc_mode.thumb || s.flags.T } := by
    intro u hu hS
    rw [SPSRtoCPSR_of_IRQ_MODE _ (hmode u)]
    have e : (writeCPSR u ((((readCPSR s &&& not32 MODE_MASK) ||| IRQ_MODE)
        &&& not32 (1 <<< 5)) ||| (1 <<< 7))).SPSR_irq = readCPSR s := hS
    rw [e, writeCPSR_readCPSR_of _ s h]
    constructor
    · show ({ s.arm_proc_mode with thumb := u.arm_proc_mode.thumb } : processor_mode)
        = s.arm_proc_mode
      rw [hu]
    · rfl
  obtain ⟨k1, k2⟩ := key
    { s with
      R14_irq := (s.ac_pc + 4) % 2 ^ 32, SPSR_irq := readCPSR s,
      ac_pc := if cfg.HIGH_VECTOR then IRQ_ADDR_HI else IRQ_ADDR } rfl rfl
  refine ⟨_, service_interrupt_irq_eq cfg s h7, k1, ?_, ?_, ?_, ?_, ?_, ?_, ?_⟩
  · rw [k2]
  · rw [k2]
  · rw [k2]
  · rw [k2]
  · rw [k2]
  · rw [k2]
  · intro hT
    rw [k2]
    have e : (s.arm_proc_mode.thumb || s.flags.T) = s.flags.T := by
      cases h1 : s.arm_proc_mode.thumb
      · simp
      · simp [hT h1]
    rw [e]

/-- C14 (amended), applied to a state in System mode with FIQ disabled and the
flags N, C, V, T set. -/
theorem irq_then_SPSRtoCPSR_witness :
    State.busy.arm_proc_mode.mode ≤ MODE_MASK ∧
    State.busy.arm_proc_mode.irq = false ∧
    ∃ t, service_interrupt Config.low State.busy EXCEPTION_IRQ = some t ∧
      (SPSRtoCPSR t).arm_proc_mode = State.busy.arm_proc_mode ∧
      (SPSRtoCPSR t).flags.N = State.busy.flags.N ∧
      (SPSRtoCPSR t).flags.Z = State.busy.flags.Z ∧
      (SPSRtoCPSR t).flags.C = State.busy.flags.C ∧
      (SPSRtoCPSR t).flags.V = State.busy.flags.V ∧
      (SPSRtoCPSR t).flags.Q = State.busy.flags.Q ∧
      (SPSRtoCPSR t).flags.T = (State.busy.arm_proc_mode.thumb || State.busy.flags.T) ∧
      ((State.busy.arm_proc_mode.thumb = true → State.busy.flags.T = true) →
        (SPSRtoCPSR t).flags = State.busy.flags) :=
  ⟨by decide, by decide, irq_then_SPSRtoCPSR Config.low State.busy (by decide) (by decide)⟩

/-! ## C15 – C17: the privilege predicate and the saved-status accessors -/

/-- The modes that `in_a_privileged_mode` names are reported as privileged,
and User mode is not. -/
theorem in_a_privileged_mode_named (s : State) :
    ((s.arm_proc_mode.mode = SYSTEM_MODE ∨ s.arm_proc_mode.mode = FIQ_MODE ∨
        s.arm_proc_mode.mode = IRQ_MODE ∨ s.arm_proc_mode.mode = SUPERVISOR_MODE ∨
        s.arm_proc_mode.mode = UNDEFINED_MODE) → in_a_privileged_mode s = true) ∧
    (s.arm_proc_mode.mode = USER_MODE → in_a_privileged_mode s = false) := by
  constructor
  · rintro (h | h | h | h | h) <;>
      simp [in_a_privileged_mode, h, SYSTEM_MODE, FIQ_MODE, IRQ_MODE, SUPERVISOR_MODE,
        UNDEFINED_MODE]
  · intro h
    simp [in_a_privileged_mode, h, USER_MODE, SYSTEM_MODE, FIQ_MODE, IRQ_MODE,
      SUPERVISOR_MODE, UNDEFINED_MODE]

/-- C15 (the code at the failing input): in mode 0x17 (Abort)
`in_a_privileged_mode()` returns false. -/
theorem in_a_privileged_mode_abort :
    State.inAbort.arm_proc_mode.mode = 0x17 ∧ in_a_privileged_mode State.inAbort = false := by
  decide

/-- In the four exception modes that `writeSPSR` and `readSPSR` name, a write
changes only the slot of the current mode and is read back; in User and System
mode the write changes nothing and the read gives 0. -/
theorem writeSPSR_readSPSR_named (s : State) (v : Nat) :
    (s.arm_proc_mode.mode = FIQ_MODE →
      writeSPSR s v = { s with SPSR_fiq := v } ∧ readSPSR (writeSPSR s v) = v) ∧
    (s.arm_proc_mode.mode = IRQ_MODE →
      writeSPSR s v = { s with SPSR_irq := v } ∧ readSPSR (writeSPSR s v) = v) ∧
    (s.arm_proc_mode.mode = SUPERVISOR_MODE →
      writeSPSR s v = { s with SPSR_svc := v } ∧ readSPSR (writeSPSR s v) = v) ∧
    (s.arm_proc_mode.mode = UNDEFINED_MODE →
      writeSPSR s v = { s with SPSR_und := v } ∧ readSPSR (writeSPSR s v) = v) ∧
    (s.arm_proc_mode.mode = USER_MODE ∨ s.arm_proc_mode.mode = SYSTEM_MODE →
      writeSPSR s v = s ∧ readSPSR s = 0) := by
  refine ⟨?_, ?_, ?_, ?_, ?_⟩
  · intro h
    simp [writeSPSR, readSPSR, h, FIQ_MODE]
  · intro h
    simp [writeSPSR, readSPSR, h, FIQ_MODE, IRQ_MODE]
  · intro h
    simp [writeSPSR, readSPSR, h, FIQ_MODE, IRQ_MODE, SUPERVISOR_MODE]
  · intro h
    simp [writeSPSR, readSPSR, h, FIQ_MODE, IRQ_MODE, SUPERVISOR_MODE, UNDEFINED_MODE]
  · rintro (h | h) <;>
      simp [writeSPSR, readSPSR, h, USER_MODE, SYSTEM_MODE, FIQ_MODE, IRQ_MODE,
        SUPERVISOR_MODE, UNDEFINED_MODE]

/-- C16 (the code at the failing input): in mode 0x17 (Abort) `writeSPSR(1)`
stores nothing and the following `readSPSR()` returns 0, not 1. -/
theorem writeSPSR_readSPSR_abort :
    writeSPSR State.inAbort 1 = State.inAbort ∧
    readSPSR (writeSPSR State.inAbort 1) = 0 ∧
    readSPSR (writeSPSR State.inAbort 1) ≠ 1 := by
  refine ⟨rfl, by decide, by decide⟩

/-- In the four exception modes that `SPSRtoCPSR` names it acts as `writeCPSR`
on the saved-status register of the mode; in User and System mode it leaves the
state unchanged. -/
theorem SPSRtoCPSR_named (s : State) :
    (s.arm_proc_mode.mode = FIQ_MODE → SPSRtoCPSR s = writeCPSR s s.SPSR_fiq) ∧
    (s.arm_proc_mode.mode = IRQ_MODE → SPSRtoCPSR s = writeCPSR s s.SPSR_irq) ∧
    (s.arm_proc_mode.mode = SUPERVISOR_MODE → SPSRtoCPSR s = writeCPSR s s.SPSR_svc) ∧
    (s.arm_proc_mode.mode = UNDEFINED_MODE → SPSRtoCPSR s = writeCPSR s s.SPSR_und) ∧
    (s.arm_proc_mode.mode = USER_MODE ∨ s.arm_proc_mode.mode = SYSTEM_MODE →
      SPSRtoCPSR s = s) := by
  refine ⟨?_, ?_, ?_, ?_, ?_⟩
  · intro h
    simp [SPSRtoCPSR, h, FIQ_MODE]
  · intro h
    simp [SPSRtoCPSR, h, FIQ_MODE, IRQ_MODE]
  · intro h
    simp [SPSRtoCPSR, h, FIQ_MODE, IRQ_MODE, SUPERVISOR_MODE]
  · intro h
    simp [SPSRtoCPSR, h, FIQ_MODE, IRQ_MODE, SUPERVISOR_MODE, UNDEFINED_MODE]
  · rintro (h | h) <;>
      simp [SPSRtoCPSR, h, USER_MODE, SYSTEM_MODE, FIQ_MODE, IRQ_MODE, SUPERVISOR_MODE,
        UNDEFINED_MODE]

/-- C17 (the code at the failing input): in mode 0x17 (Abort) with
`SPSR_abt` = 0x10, `SPSRtoCPSR()` takes the `default` branch and leaves the
state as it is (mode 0x17), whereas `writeCPSR(SPSR_abt)` would set the mode to
0x10. -/
theorem SPSRtoCPSR_abort :
    State.inAbortSaved.SPSR_abt = 0x10 ∧
    SPSRtoCPSR State.inAbortSaved = State.inAbortSaved ∧
    (SPSRtoCPSR State.inAbortSaved).arm_proc_mode.mode = 0x17 ∧
    (writeCPSR State.inAbortSaved State.inAbortSaved.SPSR_abt).arm_proc_mode.mode = 0x10 := by
  refine ⟨by decide, rfl, by decide, by decide⟩

/-! ## C18: the unknown-kind abort -/

theorem service_interrupt_run_of_some {cfg : Config} {s t : State} {k : Nat}
    (h : service_interrupt cfg s k = some t) : service_interrupt_run cfg s k = Except.ok t := by
  unfold service_interrupt at h
  cases hr : service_interrupt_run cfg s k with
  | error e => rw [hr] at h; cases h
  | ok u =>
    rw [hr] at h
    cases h
    rfl

/-- The two early returns of `service_interrupt`. -/
theorem service_interrupt_run_masked (cfg : Config) (s : State) (k : Nat)
    (h : (k = EXCEPTION_FIQ ∧ (readCPSR s).testBit 6 = true) ∨
      (k = EXCEPTION_IRQ ∧ (readCPSR s).testBit 7 = true)) :
    service_interrupt_run cfg s k = Except.ok s := by
  unfold service_interrupt_run
  dsimp only
  rcases h with ⟨rfl, h6⟩ | ⟨rfl, h7⟩
  · have c : readCPSR s &&& (1 <<< 6) ≠ 0 ∧ EXCEPTION_FIQ = EXCEPTION_FIQ :=
      ⟨(and_one_shiftLeft_ne_zero _ 6).2 h6, rfl⟩
    rw [if_pos c]
  · have c : readCPSR s &&& (1 <<< 7) ≠ 0 ∧ EXCEPTION_IRQ = EXCEPTION_IRQ :=
      ⟨(and_one_shiftLeft_ne_zero _ 7).2 h7, rfl⟩
    have d : ¬ (readCPSR s &&& (1 <<< 6) ≠ 0 ∧ EXCEPTION_IRQ = EXCEPTION_FIQ) := by
      intro hd
      exact absurd hd.2 (by decide)
    rw [if_neg d, if_pos c]

/-- For each of the seven exception kinds `service_interrupt` returns. -/
theorem service_interrupt_run_ok_of_lt (cfg : Config) (s : State) (k : Nat) (hk : k < 7) :
    ∃ t, service_interrupt_run cfg s k = Except.ok t := by
  interval_cases k
  · exact ⟨_, service_interrupt_run_of_some (service_interrupt_reset_eq cfg s)⟩
  · exact ⟨_, service_interrupt_run_of_some (service_interrupt_undefined_eq cfg s)⟩
  · exact ⟨_, service_interrupt_run_of_some (service_interrupt_swi_eq cfg s)⟩
  · exact ⟨_, service_interrupt_run_of_some (service_interrupt_prefetch_abort_eq cfg s)⟩
  · exact ⟨_, service_interrupt_run_of_some (service_interrupt_data_abort_eq cfg s)⟩
  · cases h7 : (readCPSR s).testBit 7
    · exact ⟨_, service_interrupt_run_of_some (service_interrupt_irq_eq cfg s h7)⟩
    · exact ⟨s, service_interrupt_run_masked cfg s 5 (Or.inr ⟨rfl, h7⟩)⟩
  · cases h6 : (readCPSR s).testBit 6
    · exact ⟨_, service_interrupt_run_of_some (service_interrupt_fiq_eq cfg s h6)⟩
    · exact ⟨s, service_interrupt_run_masked cfg s 6 (Or.inl ⟨rfl, h6⟩)⟩

/-- For any other kind `service_interrupt` reaches `abort()` with the state
it was called in. -/
theorem service_interrupt_run_error_of_ge (cfg : Config) (s : State) (k : Nat) (hk : 7 ≤ k) :
    service_interrupt_run cfg s k = Except.error s := by
  have h0 : ¬ k = EXCEPTION_RESET := by unfold EXCEPTION_RESET; omega
  have h1 : ¬ k = EXCEPTION_UNDEFINED_INSTR := by unfold EXCEPTION_UNDEFINED_INSTR; omega
  have h2 : ¬ k = EXCEPTION_SWI := by unfold EXCEPTION_SWI; omega
  have h3 : ¬ k = EXCEPTION_PREFETCH_ABORT := by unfold EXCEPTION_PREFETCH_ABORT; omega
  have h4 : ¬ k = EXCEPTION_DATA_ABORT := by unfold EXCEPTION_DATA_ABORT; omega
  have h5 : ¬ k = EXCEPTION_IRQ := by unfold EXCEPTION_IRQ; omega
  have h6 : ¬ k = EXCEPTION_FIQ := by unfold EXCEPTION_FIQ; omega
  unfold service_interrupt_run
  simp only [h0, h1, h2, h3, h4, h5, h6, and_false, if_false]

/-- C18: `service_interrupt(k)` ends in `abort()` exactly when `k` is none of
the seven exception kinds (`k ≥ 7`), whatever the state and so whatever the
interrupt-disable bits; the state at the abort is the state of the call, with
nothing modified; and for the seven kinds (`k < 7`) it returns. -/
theorem service_interrupt_abort_iff (cfg : Config) (s : State) (k : Nat) :
    ((∃ e, service_interrupt_run cfg s k = Except.error e) ↔ 7 ≤ k) ∧
    (∀ e, service_interrupt_run cfg s k = Except.error e → e = s) ∧
    ((∃ t, service_interrupt_run cfg s k = Except.ok t) ↔ k < 7) ∧
    (service_interrupt cfg s k = none ↔ 7 ≤ k) := by
  by_cases hk : k < 7
  · obtain ⟨t, ht⟩ := service_interrupt_run_ok_of_lt cfg s k hk
    refine ⟨⟨?_, fun h => absurd hk (by omega)⟩, ?_, ⟨fun _ => hk, fun _ => ⟨t, ht⟩⟩,
      ⟨?_, fun h => absurd hk (by omega)⟩⟩
    · rintro ⟨e, he⟩
      rw [ht] at he
      cases he
    · intro e he
      rw [ht] at he
      cases he
    · intro h
      unfold service_interrupt at h
      rw [ht] at h
      cases h
  · have hge : 7 ≤ k := by omega
    have he := service_interrupt_run_error_of_ge cfg s k hge
    refine ⟨⟨fun _ => hge, fun _ => ⟨s, he⟩⟩, ?_, ⟨?_, fun h => absurd h hk⟩,
      ⟨fun _ => hge, fun _ => ?_⟩⟩
    · intro e h
      rw [he] at h
      cases h
      rfl
    · rintro ⟨t, ht⟩
      rw [he] at ht
      cases ht
    · unfold service_interrupt
      rw [he]

/-! ## C19: what exception entry leaves alone -/

/-- Bits 6 and 8 to 31 of the status word written on exception entry, for the
kinds that do not touch bit 6, are those of the status word read before. -/
theorem entry_cpsr_testBit (x M i : Nat) (hM : M ≤ MODE_MASK) (h5 : 5 < i) (h7 : i ≠ 7)
    (h32 : i < 32) :
    ((((x &&& not32 MODE_MASK) ||| M) &&& not32 (1 <<< 5)) ||| (1 <<< 7)).testBit i
      = x.testBit i := by
  simp only [Nat.testBit_or, Nat.testBit_and, testBit_not32, testBit_MODE_MASK,
    Nat.one_shiftLeft, Nat.testBit_two_pow]
  have a0 := testBit_eq_false_of_le_MODE_MASK (i := i) hM (by omega)
  have a1 : ¬ i < 5 := by omega
  have a2 : ¬ 5 = i := by omega
  have a3 : ¬ 7 = i := by omega
  simp [a0, a1, a2, a3, h32]

/-- Bits 8 to 31 of the status word written on exception entry, for the kinds
that also set bit 6, are those of the status word read before. -/
theorem entry_cpsr_fiq_testBit (x M i : Nat) (hM : M ≤ MODE_MASK) (h7 : 7 < i)
    (h32 : i < 32) :
    (((((x &&& not32 MODE_MASK) ||| M) ||| (1 <<< 6)) &&& not32 (1 <<< 5))
      ||| (1 <<< 7)).testBit i = x.testBit i := by
  simp only [Nat.testBit_or, Nat.testBit_and, testBit_not32, testBit_MODE_MASK,
    Nat.one_shiftLeft, Nat.testBit_two_pow]
  have a0 := testBit_eq_false_of_le_MODE_MASK (i := i) hM (by omega)
  have a1 : ¬ i < 5 := by omega
  have a2 : ¬ 5 = i := by omega
  have a3 : ¬ 7 = i := by omega
  have a4 : ¬ 6 = i := by omega
  simp [a0, a1, a2, a3, a4, h32]

/-- The flag bits of the status word, and bit 6 when the mode fits the 5-bit
mode field. -/
theorem readCPSR_flag_bits (s : State) :
    (readCPSR s).testBit 31 = s.flags.N ∧ (readCPSR s).testBit 30 = s.flags.Z ∧
    (readCPSR s).testBit 29 = s.flags.C ∧ (readCPSR s).testBit 28 = s.flags.V ∧
    (readCPSR s).testBit 27 = s.flags.Q ∧
    (s.arm_proc_mode.mode ≤ MODE_MASK → (readCPSR s).testBit 6 = s.arm_proc_mode.fiq) := by
  refine ⟨?_, ?_, ?_, ?_, ?_, ?_⟩
  · rw [testBit_readCPSR]; simp
  · rw [testBit_readCPSR]; simp
  · rw [testBit_readCPSR]; simp
  · rw [testBit_readCPSR]; simp
  · rw [testBit_readCPSR]; simp
  · intro h
    rw [testBit_readCPSR]
    simp [testBit_eq_false_of_le_MODE_MASK (i := 6) h (by norm_num)]

/-- The flags and the FIQ-disabled bit after the final `writeCPSR` of
`service_interrupt`, for the kinds that do not touch bit 6. -/
theorem entry_flags (s u : State) (M : Nat) (hM : M ≤ MODE_MASK) :
    (writeCPSR u ((((readCPSR s &&& not32 MODE_MASK) ||| M) &&& not32 (1 <<< 5))
        ||| (1 <<< 7))).flags.N = s.flags.N ∧
    (writeCPSR u ((((readCPSR s &&& not32 MODE_MASK) ||| M) &&& not32 (1 <<< 5))
        ||| (1 <<< 7))).flags.Z = s.flags.Z ∧
    (writeCPSR u ((((readCPSR s &&& not32 MODE_MASK) ||| M) &&& not32 (1 <<< 5))
        ||| (1 <<< 7))).flags.C = s.flags.C ∧
    (writeCPSR u ((((readCPSR s &&& not32 MODE_MASK) ||| M) &&& not32 (1 <<< 5))
        ||| (1 <<< 7))).flags.V = s.flags.V ∧
    (writeCPSR u ((((readCPSR s &&& not32 MODE_MASK) ||| M) &&& not32 (1 <<< 5))
        ||| (1 <<< 7))).flags.Q = s.flags.Q ∧
    (s.arm_proc_mode.mode ≤ MODE_MASK →
      (writeCPSR u ((((readCPSR s &&& not32 MODE_MASK) ||| M) &&& not32 (1 <<< 5))
        ||| (1 <<< 7))).arm_proc_mode.fiq = s.arm_proc_mode.fiq) := by
  obtain ⟨b31, b30, b29, b28, b27, b6⟩ := readCPSR_flag_bits s
  rw [writeCPSR_eq]
  refine ⟨?_, ?_, ?_, ?_, ?_, ?_⟩
  · exact (entry_cpsr_testBit _ M 31 hM (by norm_num) (by norm_num) (by norm_num)).trans b31
  · exact (entry_cpsr_testBit _ M 30 hM (by norm_num) (by norm_num) (by norm_num)).trans b30
  · exact (entry_cpsr_testBit _ M 29 hM (by norm_num) (by norm_num) (by norm_num)).trans b29
  · exact (entry_cpsr_testBit _ M 28 hM (by norm_num) (by norm_num) (by norm_num)).trans b28
  · exact (entry_cpsr_testBit _ M 27 hM (by norm_num) (by norm_num) (by norm_num)).trans b27
  · intro h
    exact (entry_cpsr_testBit _ M 6 hM (by norm_num) (by norm_num) (by norm_num)).trans (b6 h)

/-- The flags after the final `writeCPSR` of `service_interrupt`, for the
kinds that also set bit 6. -/
theorem entry_flags_fiq (s u : State) (M : Nat) (hM : M ≤ MODE_MASK) :
    (writeCPSR u (((((readCPSR s &&& not32 MODE_MASK) ||| M) ||| (1 <<< 6))
        &&& not32 (1 <<< 5)) ||| (1 <<< 7))).flags.N = s.flags.N ∧
    (writeCPSR u (((((readCPSR s &&& not32 MODE_MASK) ||| M) ||| (1 <<< 6))
        &&& not32 (1 <<< 5)) ||| (1 <<< 7))).flags.Z = s.flags.Z ∧
    (writeCPSR u (((((readCPSR s &&& not32 MODE_MASK) ||| M) ||| (1 <<< 6))
        &&& not32 (1 <<< 5)) ||| (1 <<< 7))).flags.C = s.flags.C ∧
    (writeCPSR u (((((readCPSR s &&& not32 MODE_MASK) ||| M) ||| (1 <<< 6))
        &&& not32 (1 <<< 5)) ||| (1 <<< 7))).flags.V = s.flags.V ∧
    (writeCPSR u (((((readCPSR s &&& not32 MODE_MASK) ||| M) ||| (1 <<< 6))
        &&& not32 (1 <<< 5)) ||| (1 <<< 7))).flags.Q = s.flags.Q := by
  obtain ⟨b31, b30, b29, b28, b27, _⟩ := readCPSR_flag_bits s
  rw [writeCPSR_eq]
  refine ⟨?_, ?_, ?_, ?_, ?_⟩
  · exact (entry_cpsr_fiq_testBit _ M 31 hM (by norm_num) (by norm_num)).trans b31
  · exact (entry_cpsr_fiq_testBit _ M 30 hM (by norm_num) (by norm_num)).trans b30
  · exact (entry_cpsr_fiq_testBit _ M 29 hM (by norm_num) (by norm_num)).trans b29
  · exact (entry_cpsr_fiq_testBit _ M 28 hM (by norm_num) (by norm_num)).trans b28
  · exact (entry_cpsr_fiq_testBit _ M 27 hM (by norm_num) (by norm_num)).trans b27

/-- Bit 6 of the status word read back after `writeCPSR`. -/
theorem testBit_6_readCPSR_writeCPSR (s : State) (y : Nat) :
    (readCPSR (writeCPSR s y)).testBit 6 = y.testBit 6 := by
  rw [testBit_readCPSR, writeCPSR_eq]
  simp [testBit_MODE_MASK]

/-- Bit 6 of the status word read back after the final `writeCPSR` of
`service_interrupt`, for the kinds that do not touch bit 6, is bit 6 of the
status word read before. -/
theorem entry_cpsr_bit6 (s u : State) (M : Nat) (hM : M ≤ MODE_MASK) :
    (readCPSR (writeCPSR u ((((readCPSR s &&& not32 MODE_MASK) ||| M) &&& not32 (1 <<< 5))
        ||| (1 <<< 7)))).testBit 6 = (readCPSR s).testBit 6 := by
  rw [testBit_6_readCPSR_writeCPSR]
  exact entry_cpsr_testBit _ M 6 hM (by norm_num) (by norm_num) (by norm_num)

/-- C19: for each of the seven exception kinds and every state (with the
constant `ABORT_MODE` fitting the 5-bit mode field), `service_interrupt(kind)`
returns a state in which the flags N, Z, C, V, Q, the generic register bank,
every banked register R8 to R13, and the link register and saved-status
register of every mode other than the target mode of the kind are unchanged;
and for kinds other than Reset and FIQ the FIQ-disabled bit keeps its prior
value: bit 6 of `readCPSR()` is the same before and after in every state, and
so is the `fiq` field of `arm_proc_mode` whenever the prior mode number fits
the 5-bit mode field. -/
theorem service_interrupt_frame (cfg : Config) (s : State) (k : Nat) (hk : k < 7)
    (hA : cfg.ABORT_MODE ≤ MODE_MASK) :
    ∃ t, service_interrupt cfg s k = some t ∧
      t.flags.N = s.flags.N ∧ t.flags.Z = s.flags.Z ∧ t.flags.C = s.flags.C ∧
      t.flags.V = s.flags.V ∧ t.flags.Q = s.flags.Q ∧
      t.RB = s.RB ∧
      t.R8_fiq = s.R8_fiq ∧ t.R9_fiq = s.R9_fiq ∧ t.R10_fiq = s.R10_fiq ∧
      t.R11_fiq = s.R11_fiq ∧ t.R12_fiq = s.R12_fiq ∧ t.R13_fiq = s.R13_fiq ∧
      t.R13_irq = s.R13_irq ∧ t.R13_svc = s.R13_svc ∧ t.R13_und = s.R13_und ∧
      (k ≠ EXCEPTION_FIQ → t.R14_fiq = s.R14_fiq ∧ t.SPSR_fiq = s.SPSR_fiq) ∧
      (k ≠ EXCEPTION_IRQ → t.R14_irq = s.R14_irq ∧ t.SPSR_irq = s.SPSR_irq) ∧
      (k ≠ EXCEPTION_RESET → k ≠ EXCEPTION_SWI →
        t.R14_svc = s.R14_svc ∧ t.SPSR_svc = s.SPSR_svc) ∧
      (k ≠ EXCEPTION_UNDEFINED_INSTR → t.R14_und = s.R14_und ∧ t.SPSR_und = s.SPSR_und) ∧
      (k ≠ EXCEPTION_PREFETCH_ABORT → k ≠ EXCEPTION_DATA_ABORT →
        t.R14_abt = s.R14_abt ∧ t.SPSR_abt = s.SPSR_abt) ∧
      (k ≠ EXCEPTION_RESET → k ≠ EXCEPTION_FIQ →
        (readCPSR t).testBit 6 = (readCPSR s).testBit 6 ∧
        (s.arm_proc_mode.mode ≤ MODE_MASK → t.arm_proc_mode.fiq = s.arm_proc_mode.fiq)) := by
  have masked : ∀ j, service_interrupt cfg s j = some s →
      ∃ t, service_interrupt cfg s j = some t ∧
      t.flags.N = s.flags.N ∧ t.flags.Z = s.flags.Z ∧ t.flags.C = s.flags.C ∧
      t.flags.V = s.flags.V ∧ t.flags.Q = s.flags.Q ∧
      t.RB = s.RB ∧
      t.R8_fiq = s.R8_fiq ∧ t.R9_fiq = s.R9_fiq ∧ t.R10_fiq = s.R10_fiq ∧
      t.R11_fiq = s.R11_fiq ∧ t.R12_fiq = s.R12_fiq ∧ t.R13_fiq = s.R13_fiq ∧
      t.R13_irq = s.R13_irq ∧ t.R13_svc = s.R13_svc ∧ t.R13_und = s.R13_und ∧
      (j ≠ EXCEPTION_FIQ → t.R14_fiq = s.R14_fiq ∧ t.SPSR_fiq = s.SPSR_fiq) ∧
      (j ≠ EXCEPTION_IRQ → t.R14_irq = s.R14_irq ∧ t.SPSR_irq = s.SPSR_irq) ∧
      (j ≠ EXCEPTION_RESET → j ≠ EXCEPTION_SWI →
        t.R14_svc = s.R14_svc ∧ t.SPSR_svc = s.SPSR_svc) ∧
      (j ≠ EXCEPTION_UNDEFINED_INSTR → t.R14_und = s.R14_und ∧ t.SPSR_und = s.SPSR_und) ∧
      (j ≠ EXCEPTION_PREFETCH_ABORT → j ≠ EXCEPTION_DATA_ABORT →
        t.R14_abt = s.R14_abt ∧ t.SPSR_abt = s.SPSR_abt) ∧
      (j ≠ EXCEPTION_RESET → j ≠ EXCEPTION_FIQ →
        (readCPSR t).testBit 6 = (readCPSR s).testBit 6 ∧
        (s.arm_proc_mode.mode ≤ MODE_MASK → t.arm_proc_mode.fiq = s.arm_proc_mode.fiq)) := by
    intro j hj
    exact ⟨s, hj, rfl, rfl, rfl, rfl, rfl, rfl, rfl, rfl, rfl, rfl, rfl, rfl, rfl, rfl, rfl,
      fun _ => ⟨rfl, rfl⟩, fun _ => ⟨rfl, rfl⟩, fun _ _ => ⟨rfl, rfl⟩, fun _ => ⟨rfl, rfl⟩,
      fun _ _ => ⟨rfl, rfl⟩, fun _ _ => ⟨rfl, fun _ => rfl⟩⟩
  interval_cases k
  · obtain ⟨fN, fZ, fC, fV, fQ⟩ :=
      entry_flags_fiq s { s with
          R14_svc := 0, SPSR_svc := 0,
          ac_pc := if cfg.HIGH_VECTOR then RESET_ADDR_HI else RESET_ADDR }
        SUPERVISOR_MODE (by decide)
    exact ⟨_, service_interrupt_reset_eq cfg s, fN, fZ, fC, fV, fQ, rfl, rfl, rfl, rfl, rfl,
      rfl, rfl, rfl, rfl, rfl, fun _ => ⟨rfl, rfl⟩, fun _ => ⟨rfl, rfl⟩,
      fun h _ => absurd rfl h, fun _ => ⟨rfl, rfl⟩, fun _ _ => ⟨rfl, rfl⟩,
      fun h _ => absurd rfl h⟩
  · obtain ⟨fN, fZ, fC, fV, fQ, fF⟩ :=
      entry_flags s { s with
          R14_und := s.ac_pc, SPSR_und := readCPSR s,
          ac_pc := if cfg.HIGH_VECTOR then UNDEFINED_ADDR_HI else UNDEFINED_ADDR }
        UNDEFINED_MODE (by decide)
    exact ⟨_, service_interrupt_undefined_eq cfg s, fN, fZ, fC, fV, fQ, rfl, rfl, rfl, rfl,
      rfl, rfl, rfl, rfl, rfl, rfl, fun _ => ⟨rfl, rfl⟩, fun _ => ⟨rfl, rfl⟩,
      fun _ _ => ⟨rfl, rfl⟩, fun h => absurd rfl h, fun _ _ => ⟨rfl, rfl⟩,
      fun _ _ => ⟨entry_cpsr_bit6 s _ _ (by decide), fF⟩⟩
  · obtain ⟨fN, fZ, fC, fV, fQ, fF⟩ :=
      entry_flags s { s with
          R14_svc := s.ac_pc, SPSR_svc := readCPSR s,
          ac_pc := if cfg.HIGH_VECTOR then SWI_ADDR_HI else SWI_ADDR }
        SUPERVISOR_MODE (by decide)
    exact ⟨_, service_interrupt_swi_eq cfg s, fN, fZ, fC, fV, fQ, rfl, rfl, rfl, rfl,
      rfl, rfl, rfl, rfl, rfl, rfl, fun _ => ⟨rfl, rfl⟩, fun _ => ⟨rfl, rfl⟩,
      fun _ h => absurd rfl h, fun _ => ⟨rfl, rfl⟩, fun _ _ => ⟨rfl, rfl⟩,
      fun _ _ => ⟨entry_cpsr_bit6 s _ _ (by decide), fF⟩⟩
  · obtain ⟨fN, fZ, fC, fV, fQ, fF⟩ :=
      entry_flags s { s with
          R14_abt := s.ac_pc, SPSR_abt := readCPSR s,
          ac_pc := if cfg.HIGH_VECTOR then PREFETCH_ABORT_ADDR_HI else PREFETCH_ABORT_ADDR }
        cfg.ABORT_MODE hA
    exact ⟨_, service_interrupt_prefetch_abort_eq cfg s, fN, fZ, fC, fV, fQ, rfl, rfl, rfl,
      rfl, rfl, rfl, rfl, rfl, rfl, rfl, fun _ => ⟨rfl, rfl⟩, fun _ => ⟨rfl, rfl⟩,
      fun _ _ => ⟨rfl, rfl⟩, fun _ => ⟨rfl, rfl⟩, fun h _ => absurd rfl h,
      fun _ _ => ⟨entry_cpsr_bit6 s _ _ hA, fF⟩⟩
  · obtain ⟨fN, fZ, fC, fV, fQ, fF⟩ :=
      entry_flags s { s with
          R14_abt := (s.ac_pc + 4) % 2 ^ 32, SPSR_abt := readCPSR s,
          ac_pc := if cfg.HIGH_VECTOR then DATA_ABORT_ADDR_HI else DATA_ABORT_ADDR }
        cfg.ABORT_MODE hA
    exact ⟨_, service_interrupt_data_abort_eq cfg s, fN, fZ, fC, fV, fQ, rfl, rfl, rfl,
      rfl, rfl, rfl, rfl, rfl, rfl, rfl, fun _ => ⟨rfl, rfl⟩, fun _ => ⟨rfl, rfl⟩,
      fun _ _ => ⟨rfl, rfl⟩, fun _ => ⟨rfl, rfl⟩, fun _ h => absurd rfl h,
      fun _ _ => ⟨entry_cpsr_bit6 s _ _ hA, fF⟩⟩
  · cases h7 : (readCPSR s).testBit 7
    · obtain ⟨fN, fZ, fC, fV, fQ, fF⟩ :=
        entry_flags s { s with
            R14_irq := (s.ac_pc + 4) % 2 ^ 32, SPSR_irq := readCPSR s,
            ac_pc := if cfg.HIGH_VECTOR then IRQ_ADDR_HI else IRQ_ADDR }
          IRQ_MODE (by decide)
      exact ⟨_, service_interrupt_irq_eq cfg s h7, fN, fZ, fC, fV, fQ, rfl, rfl, rfl,
        rfl, rfl, rfl, rfl, rfl, rfl, rfl, fun _ => ⟨rfl, rfl⟩, fun h => absurd rfl h,
        fun _ _ => ⟨rfl, rfl⟩, fun _ => ⟨rfl, rfl⟩, fun _ _ => ⟨rfl, rfl⟩,
        fun _ _ => ⟨entry_cpsr_bit6 s _ _ (by decide), fF⟩⟩
    · refine masked 5 ?_
      have hr := service_interrupt_run_masked cfg s 5 (Or.inr ⟨rfl, h7⟩)
      unfold service_interrupt
      rw [hr]
  · by_cases h6t : (readCPSR s).testBit 6 = true
    swap
    · have h6 : (readCPSR s).testBit 6 = false := by simpa using h6t
      obtain ⟨fN, fZ, fC, fV, fQ⟩ :=
        entry_flags_fiq s { s with
            R14_fiq := (s.ac_pc + 4) % 2 ^ 32, SPSR_fiq := readCPSR s,
            ac_pc := if cfg.HIGH_VECTOR then FIQ_ADDR_HI else FIQ_ADDR }
          FIQ_MODE (by decide)
      exact ⟨_, service_interrupt_fiq_eq cfg s h6, fN, fZ, fC, fV, fQ, rfl, rfl, rfl,
        rfl, rfl, rfl, rfl, rfl, rfl, rfl, fun h => absurd rfl h, fun _ => ⟨rfl, rfl⟩,
        fun _ _ => ⟨rfl, rfl⟩, fun _ => ⟨rfl, rfl⟩, fun _ _ => ⟨rfl, rfl⟩,
        fun _ h => absurd rfl h⟩
    · refine masked 6 ?_
      have hr := service_interrupt_run_masked cfg s 6 (Or.inl ⟨rfl, h6t⟩)
      unfold service_interrupt
      rw [hr]

/-- C19, applied to a software interrupt raised in the sample state. -/
theorem service_interrupt_frame_witness :
    EXCEPTION_SWI < 7 ∧ Config.low.ABORT_MODE ≤ MODE_MASK ∧
    ∃ t, service_interrupt Config.low State.sample EXCEPTION_SWI = some t ∧
      t.flags.N = State.sample.flags.N ∧ t.flags.Z = State.sample.flags.Z ∧
      t.flags.C = State.sample.flags.C ∧ t.flags.V = State.sample.flags.V ∧
      t.flags.Q = State.sample.flags.Q ∧
      t.RB = State.sample.RB ∧
      t.R8_fiq = State.sample.R8_fiq ∧ t.R9_fiq = State.sample.R9_fiq ∧
      t.R10_fiq = State.sample.R10_fiq ∧ t.R11_fiq = State.sample.R11_fiq ∧
      t.R12_fiq = State.sample.R12_fiq ∧ t.R13_fiq = State.sample.R13_fiq ∧
      t.R13_irq = State.sample.R13_irq ∧ t.R13_svc = State.sample.R13_svc ∧
      t.R13_und = State.sample.R13_und ∧
      (EXCEPTION_SWI ≠ EXCEPTION_FIQ →
        t.R14_fiq = State.sample.R14_fiq ∧ t.SPSR_fiq = State.sample.SPSR_fiq) ∧
      (EXCEPTION_SWI ≠ EXCEPTION_IRQ →
        t.R14_irq = State.sample.R14_irq ∧ t.SPSR_irq = State.sample.SPSR_irq) ∧
      (EXCEPTION_SWI ≠ EXCEPTION_RESET → EXCEPTION_SWI ≠ EXCEPTION_SWI →
        t.R14_svc = State.sample.R14_svc ∧ t.SPSR_svc = State.sample.SPSR_svc) ∧
      (EXCEPTION_SWI ≠ EXCEPTION_UNDEFINED_INSTR →
        t.R14_und = State.sample.R14_und ∧ t.SPSR_und = State.sample.SPSR_und) ∧
      (EXCEPTION_SWI ≠ EXCEPTION_PREFETCH_ABORT → EXCEPTION_SWI ≠ EXCEPTION_DATA_ABORT →
        t.R14_abt = State.sample.R14_abt ∧ t.SPSR_abt = State.sample.SPSR_abt) ∧
      (EXCEPTION_SWI ≠ EXCEPTION_RESET → EXCEPTION_SWI ≠ EXCEPTION_FIQ →
        (readCPSR t).testBit 6 = (readCPSR State.sample).testBit 6 ∧
        (State.sample.arm_proc_mode.mode ≤ MODE_MASK →
          t.arm_proc_mode.fiq = State.sample.arm_proc_mode.fiq)) :=
  ⟨by decide, by decide,
    service_interrupt_frame Config.low State.sample EXCEPTION_SWI (by decide) (by decide)⟩

/-! ## C20: `SignExtend` -/

theorem toInt32_of_lt {u : Nat} (h : u < 2 ^ 31) : toInt32 u = (u : Int) := by
  unfold toInt32
  have h1 : u % 2 ^ 32 = u := Nat.mod_eq_of_lt (by omega)
  rw [h1, if_pos h]

theorem toBits_natCast {w u : Nat} (h : u < 2 ^ w) : toBits w (u : Int) = u := by
  unfold toBits
  have : ((u : Int) % 2 ^ w) = (u : Int) := by
    apply Int.emod_eq_of_lt (by positivity)
    exact_mod_cast h
  rw [this]
  simp

theorem toInt32_toBits {i : Int} (h1 : -2 ^ 31 ≤ i) (h2 : i < 2 ^ 31) :
    toInt32 (toBits 32 i) = i := by
  unfold toInt32 toBits
  have hp : (0 : Int) ≤ i % 2 ^ 32 := Int.emod_nonneg _ (by norm_num)
  have hlt : i % 2 ^ 32 < 2 ^ 32 := Int.emod_lt_of_pos _ (by norm_num)
  have hn : ((i % 2 ^ 32).toNat : Int) = i % 2 ^ 32 := Int.toNat_of_nonneg hp
  have hb : (i % 2 ^ 32).toNat < 2 ^ 32 := by
    have : ((i % 2 ^ 32).toNat : Int) < 2 ^ 32 := by rw [hn]; exact hlt
    exact_mod_cast this
  rw [Nat.mod_eq_of_lt hb]
  by_cases hi : 0 ≤ i
  · have e : i % 2 ^ 32 = i := Int.emod_eq_of_lt hi (by omega)
    have : (i % 2 ^ 32).toNat < 2 ^ 31 := by
      have : ((i % 2 ^ 32).toNat : Int) < 2 ^ 31 := by rw [hn, e]; exact h2
      exact_mod_cast this
    rw [if_pos this, hn, e]
  · have e : i % 2 ^ 32 = i + 2 ^ 32 := by
      have := Int.emod_emod_of_dvd i (dvd_refl (2 ^ 32 : Int))
      rw [← Int.add_mul_emod_self (b := 1) (c := 2 ^ 32)]
      simp only [one_mul]
      exact Int.emod_eq_of_lt (by omega) (by omega)
    have : ¬ (i % 2 ^ 32).toNat < 2 ^ 31 := by
      intro hc
      have : ((i % 2 ^ 32).toNat : Int) < 2 ^ 31 := by exact_mod_cast hc
      rw [hn, e] at this
      omega
    rw [if_neg this, hn, e]
    omega

theorem xor_two_pow_of_lt {x k : Nat} (h : x < 2 ^ k) : x ^^^ 2 ^ k = x + 2 ^ k := by
  apply Nat.eq_of_testBit_eq
  intro i
  rw [Nat.testBit_xor, Nat.testBit_two_pow, Nat.add_comm]
  rcases Nat.lt_trichotomy i k with hi | rfl | hi
  · rw [Nat.testBit_two_pow_add_gt hi]
    have : ¬ k = i := by omega
    simp [this]
  · rw [Nat.testBit_two_pow_add_eq, Nat.testBit_lt_two_pow h]
    simp
  · have hx : x.testBit i = false :=
      Nat.testBit_lt_two_pow (lt_of_lt_of_le h (Nat.pow_le_pow_right (by norm_num) (by omega)))
    have hs : (2 ^ k + x).testBit i = false := by
      apply Nat.testBit_lt_two_pow
      have : 2 ^ (k + 1) ≤ 2 ^ i := Nat.pow_le_pow_right (by norm_num) (by omega)
      have e : 2 ^ (k + 1) = 2 * 2 ^ k := by ring
      omega
    have : ¬ k = i := by omega
    simp [hx, hs, this]

theorem xor_two_pow_of_ge {x k : Nat} (h1 : 2 ^ k ≤ x) (h2 : x < 2 ^ (k + 1)) :
    x ^^^ 2 ^ k = x - 2 ^ k := by
  have e : 2 ^ (k + 1) = 2 * 2 ^ k := by ring
  have hy : x - 2 ^ k < 2 ^ k := by omega
  have hx : x = (x - 2 ^ k) ^^^ 2 ^ k := by
    rw [xor_two_pow_of_lt hy]
    omega
  conv_lhs => rw [hx]
  rw [Nat.xor_assoc, Nat.xor_self, Nat.xor_zero]

/-- Closed form of `SignExtend` for word lengths 1 to 31. -/
theorem SignExtend_eq (word : Int) (n : Nat) (h1 : 1 ≤ n) (h2 : n ≤ 31) :
    SignExtend word n =
      if word % 2 ^ n < 2 ^ (n - 1) then word % 2 ^ n else word % 2 ^ n - 2 ^ n := by
  obtain ⟨k, rfl⟩ : ∃ k, n = k + 1 := ⟨n - 1, by omega⟩
  have hk : k ≤ 30 := by omega
  have hP : 2 ^ k ≤ 2 ^ 30 := Nat.pow_le_pow_right (by norm_num) hk
  have hP1 : 2 ^ (k + 1) = 2 * 2 ^ k := by ring
  have hPpos : 0 < 2 ^ k := Nat.pos_pow_of_pos k (by norm_num)
  -- the constant `m`
  have hm : toInt32 ((1 <<< (k + 1 - 1)) % 2 ^ 32) = ((2 ^ k : Nat) : Int) := by
    have h32 : 2 ^ k < 2 ^ 32 := by omega
    have h31 : 2 ^ k < 2 ^ 31 := by omega
    rw [Nat.add_sub_cancel, Nat.one_shiftLeft, Nat.mod_eq_of_lt h32]
    exact toInt32_of_lt h31
  -- the mask
  have hmask : ((1 <<< (k + 1)) % 2 ^ 64 + 2 ^ 64 - 1) % 2 ^ 64 = 2 ^ (k + 1) - 1 := by
    have h64 : 2 ^ (k + 1) < 2 ^ 64 := by omega
    rw [Nat.one_shiftLeft, Nat.mod_eq_of_lt h64]
    omega
  -- the low bits of the word
  have hxlt : toBits 64 word % 2 ^ (k + 1) < 2 ^ (k + 1) :=
    Nat.mod_lt _ (Nat.pos_pow_of_pos (k + 1) (by norm_num))
  have hxcast : ((toBits 64 word % 2 ^ (k + 1) : Nat) : Int) = word % 2 ^ (k + 1) := by
    unfold toBits
    have hp : (0 : Int) ≤ word % 2 ^ 64 := Int.emod_nonneg _ (by norm_num)
    rw [Int.natCast_mod, Int.toNat_of_nonneg hp]
    push_cast
    apply Int.emod_emod_of_dvd
    exact pow_dvd_pow 2 (show k + 1 ≤ 64 by omega)
  unfold SignExtend
  simp only []
  rw [hm, hmask, Nat.and_pow_two_sub_one_eq_mod]
  generalize hx : toBits 64 word % 2 ^ (k + 1) = xN at hxlt hxcast
  rw [toInt32_of_lt (show xN < 2 ^ 31 by omega), toBits_natCast (show xN < 2 ^ 32 by omega),
    toBits_natCast (show 2 ^ k < 2 ^ 32 by omega), Nat.add_sub_cancel, ← hxcast]
  by_cases hc : xN < 2 ^ k
  · have hc' : ((xN : Nat) : Int) < 2 ^ k := by exact_mod_cast hc
    rw [if_pos hc', xor_two_pow_of_lt hc, toInt32_of_lt (show xN + 2 ^ k < 2 ^ 31 by omega)]
    have : ((xN + 2 ^ k : Nat) : Int) - ((2 ^ k : Nat) : Int) = (xN : Int) := by
      push_cast
      ring
    rw [this, toBits_natCast (show xN < 2 ^ 32 by omega), toInt32_of_lt (by omega)]
  · have hc' : ¬ ((xN : Nat) : Int) < 2 ^ k := by
      intro h
      exact hc (by exact_mod_cast h)
    have hge : 2 ^ k ≤ xN := Nat.le_of_not_lt hc
    rw [if_neg hc', xor_two_pow_of_ge hge hxlt,
      toInt32_of_lt (show xN - 2 ^ k < 2 ^ 31 by omega)]
    have : ((xN - 2 ^ k : Nat) : Int) - ((2 ^ k : Nat) : Int) = (xN : Int) - 2 ^ (k + 1) := by
      rw [Nat.cast_sub hge]
      push_cast
      ring
    rw [this]
    apply toInt32_toBits
    · have : (2 : Int) ^ (k + 1) = 2 * 2 ^ k := by ring
      have h3 : ((2 ^ k : Nat) : Int) ≤ (xN : Int) := by exact_mod_cast hge
      have h4 : ((2 ^ k : Nat) : Int) ≤ 2 ^ 30 := by exact_mod_cast hP
      push_cast at h3 h4
      omega
    · have h3 : ((xN : Nat) : Int) < ((2 ^ (k + 1) : Nat) : Int) := by exact_mod_cast hxlt
      push_cast at h3
      omega

/-- Two integers of the window `[-2^(n-1), 2^(n-1))` that are congruent modulo
`2^n` are equal. -/
theorem eq_of_modEq_of_window {n : Nat} (h1 : 1 ≤ n) {a b : Int}
    (ha1 : -2 ^ (n - 1) ≤ a) (ha2 : a < 2 ^ (n - 1))
    (hb1 : -2 ^ (n - 1) ≤ b) (hb2 : b < 2 ^ (n - 1))
    (h : a ≡ b [ZMOD 2 ^ n]) : a = b := by
  obtain ⟨k, rfl⟩ : ∃ k, n = k + 1 := ⟨n - 1, by omega⟩
  rw [Nat.add_sub_cancel] at ha1 ha2 hb1 hb2
  have e : (2 : Int) ^ (k + 1) = 2 * 2 ^ k := by ring
  have h' : (a + 2 ^ k) % 2 ^ (k + 1) = (b + 2 ^ k) % 2 ^ (k + 1) := h.add_right _
  rw [Int.emod_eq_of_lt (by omega) (by omega), Int.emod_eq_of_lt (by omega) (by omega)] at h'
  omega

/-- The range and the congruence class of `SignExtend(word, n)`. -/
theorem SignExtend_window (word : Int) (n : Nat) (h1 : 1 ≤ n) (h2 : n ≤ 31) :
    -2 ^ (n - 1) ≤ SignExtend word n ∧ SignExtend word n < 2 ^ (n - 1) ∧
    SignExtend word n ≡ word [ZMOD 2 ^ n] := by
  rw [SignExtend_eq word n h1 h2]
  obtain ⟨k, rfl⟩ : ∃ k, n = k + 1 := ⟨n - 1, by omega⟩
  rw [Nat.add_sub_cancel]
  have e : (2 : Int) ^ (k + 1) = 2 * 2 ^ k := by ring
  have hpos : (0 : Int) < 2 ^ (k + 1) := by positivity
  have hp : (0 : Int) ≤ word % 2 ^ (k + 1) := Int.emod_nonneg _ (ne_of_gt hpos)
  have hlt : word % 2 ^ (k + 1) < 2 ^ (k + 1) := Int.emod_lt_of_pos _ hpos
  have hk : (0 : Int) < 2 ^ k := by positivity
  split
  · next hc =>
    refine ⟨by omega, hc, ?_⟩
    exact Int.mod_modEq _ _
  · next hc =>
    refine ⟨by omega, by omega, ?_⟩
    have h0 : word % 2 ^ (k + 1) - 2 ^ (k + 1) ≡ word % 2 ^ (k + 1) [ZMOD 2 ^ (k + 1)] := by
      rw [Int.modEq_iff_dvd]
      have e2 : word % 2 ^ (k + 1) - (word % 2 ^ (k + 1) - 2 ^ (k + 1)) = 2 ^ (k + 1) := by
        ring
      rw [e2]
    exact h0.trans (Int.mod_modEq _ _)

/-- C20: for every word (in particular every 32-bit word) and every
`word_length` n with 1 ≤ n ≤ 31, `SignExtend(word, n)` lies in
[-2^(n-1), 2^(n-1)) and is congruent to `word` modulo 2^n; it is the only such
integer; and `SignExtend(SignExtend(word, n), n) = SignExtend(word, n)`. -/
theorem SignExtend_spec (word : Int) (n : Nat) (h1 : 1 ≤ n) (h2 : n ≤ 31) :
    (-2 ^ (n - 1) ≤ SignExtend word n ∧ SignExtend word n < 2 ^ (n - 1) ∧
      SignExtend word n ≡ word [ZMOD 2 ^ n]) ∧
    (∀ r : Int, -2 ^ (n - 1) ≤ r → r < 2 ^ (n - 1) → r ≡ word [ZMOD 2 ^ n] →
      r = SignExtend word n) ∧
    SignExtend (SignExtend word n) n = SignExtend word n := by
  obtain ⟨w1, w2, w3⟩ := SignExtend_window word n h1 h2
  refine ⟨⟨w1, w2, w3⟩, ?_, ?_⟩
  · intro r r1 r2 r3
    exact eq_of_modEq_of_window h1 r1 r2 w1 w2 (r3.trans w3.symm)
  · obtain ⟨v1, v2, v3⟩ := SignExtend_window (SignExtend word n) n h1 h2
    exact eq_of_modEq_of_window h1 v1 v2 w1 w2 v3

/-- C20, applied to the word 0x128 and word length 4 (the result is -8). -/
theorem SignExtend_spec_witness :
    1 ≤ 4 ∧ 4 ≤ 31 ∧
    ((-2 ^ (4 - 1) ≤ SignExtend 0x128 4 ∧ SignExtend 0x128 4 < 2 ^ (4 - 1) ∧
      SignExtend 0x128 4 ≡ 0x128 [ZMOD 2 ^ 4]) ∧
    (∀ r : Int, -2 ^ (4 - 1) ≤ r → r < 2 ^ (4 - 1) → r ≡ 0x128 [ZMOD 2 ^ 4] →
      r = SignExtend 0x128 4) ∧
    SignExtend (SignExtend 0x128 4) 4 = SignExtend 0x128 4) :=
  ⟨by decide, by decide, SignExtend_spec 0x128 4 (by decide) (by decide)⟩

end ArmIsaHelper
